import Mathlib

/-!
Shallow embedding of the MDP gridworld solvers from `src/main.py` and
`src/policy.py`.

Conventions of the embedding:
* Python floats are modelled as exact rationals (`ℚ`); the numeric literals
  `0.8`, `0.1`, `0.99`, `1e-4` of the source become `8/10`, `1/10`, `99/100`,
  `1/10000`.
* Python dicts (the value table `V`, the policy table) are modelled as
  insertion-ordered association lists `List (GState × α)`, with `dictSet`
  mirroring `d[k] = v` (update in place if the key is present, append
  otherwise — exactly Python's insertion-order semantics) and `dictGet`
  mirroring `d[k]` (every lookup performed by the source hits an existing key,
  so the default value of `dictGet` is never exercised on the source's runs).
* The two `while True:` convergence loops and the outer `while not
  is_policy_stable:` loop are modelled with an explicit fuel argument and
  return `none` when the fuel runs out before the loop's own exit condition
  fires.
* `float('-inf')` together with the `best_action = None` initialisation of the
  action-selection loops is modelled by accumulating `Option ℚ × Option Action`
  with `none` standing for the initial `-inf`/`None` pair; a comparison of a
  real number with `-inf` is always true, which is the `none` branch below.
-/

namespace MDP

set_option maxRecDepth 2000000
set_option maxHeartbeats 400000000

/-- Grid coordinates; Python tuples `(i, j)` of ints. -/
abbrev GState := Int × Int

/-- `grid_size = 3` (both files). -/
def grid_size : Int := 3

/-- `states = [(i, j) for i in range(grid_size) for j in range(grid_size)]`. -/
def states : List GState :=
  (List.range 3).flatMap (fun i => (List.range 3).map (fun j => ((i : Int), (j : Int))))

/-- `actions = ['U', 'D', 'L', 'R']` — the insertion order of the list literal. -/
inductive Action : Type
  | U | D | L | R
deriving DecidableEq, Repr

open Action

/-- The action list in its source (insertion) order. -/
def actions : List Action := [U, D, L, R]

/-- The one-character name of each action; used to embed Python's
`sorted(actions)`, which sorts the strings `'U'`, `'D'`, `'L'`, `'R'`. -/
def actionChar : Action → Char
  | U => 'U'
  | D => 'D'
  | L => 'L'
  | R => 'R'

/-- `sorted(actions)` as evaluated at `main.py:81` (the action-iteration
order of `value_iteration`): insertion sort of the four one-character strings
in code-point order. -/
def sortedActionsMain : List Action :=
  List.insertionSort (fun a b => actionChar a ≤ actionChar b) actions

/-- `sorted(actions)` as evaluated at `policy.py:78` (the action-iteration
order of `policy_improvement`). -/
def sortedActionsPolicy : List Action :=
  List.insertionSort (fun a b => actionChar a ≤ actionChar b) actions

/-- `discount = 0.99`. -/
def discount : ℚ := 99 / 100

/-- `action_effects` dict. -/
def action_effects : Action → Int × Int
  | U => (-1, 0)
  | D => (1, 0)
  | L => (0, -1)
  | R => (0, 1)

/-- `perpendiculars` dict. -/
def perpendiculars : Action → List Action
  | U => [L, R]
  | D => [L, R]
  | L => [U, D]
  | R => [U, D]

/-- `in_grid(x, y)`. -/
def in_grid (x y : Int) : Bool :=
  decide (0 ≤ x) && decide (x < grid_size) && (decide (0 ≤ y) && decide (y < grid_size))

/-- `get_next_states(state, action)` (identical in `main.py:28` and
`policy.py:29`): the primary direction with probability `0.8`, then the two
perpendicular directions with probability `0.1` each, every out-of-grid
displacement resolving to the originating state. -/
def get_next_states (state : GState) (action : Action) : List (GState × ℚ) :=
  let i := state.1
  let j := state.2
  let d := action_effects action
  let primary :=
    if in_grid (i + d.1) (j + d.2) then ((i + d.1, j + d.2), (8 : ℚ) / 10)
    else ((i, j), (8 : ℚ) / 10)
  let perps := (perpendiculars action).map (fun perp =>
    let e := action_effects perp
    if in_grid (i + e.1) (j + e.2) then ((i + e.1, j + e.2), (1 : ℚ) / 10)
    else ((i, j), (1 : ℚ) / 10))
  primary :: perps

/-- The state-dependent reward dict built by `value_iteration (main.py:58)` and
`policy_iteration (policy.py:92)`: reward `r` at `(0,0)`, `10` at the goal
`(0,2)`, `-1` everywhere else, written out entry by entry as in the source. -/
def rewards (r : ℚ) (s : GState) : ℚ :=
  if s = ((0 : Int), (0 : Int)) then r
  else if s = ((0 : Int), (1 : Int)) then -1
  else if s = ((0 : Int), (2 : Int)) then 10
  else if s = ((1 : Int), (0 : Int)) then -1
  else if s = ((1 : Int), (1 : Int)) then -1
  else if s = ((1 : Int), (2 : Int)) then -1
  else if s = ((2 : Int), (0 : Int)) then -1
  else if s = ((2 : Int), (1 : Int)) then -1
  else -1

/-- `terminal_states = [(0, 2)]`. -/
def terminal_states : List GState := [((0 : Int), (2 : Int))]

/-- Python-dict assignment `d[k] = v` on an insertion-ordered association
list: overwrite in place when the key exists, append otherwise. -/
def dictSet {α : Type} : List (GState × α) → GState → α → List (GState × α)
  | [], k, v => [(k, v)]
  | (k', v') :: rest, k, v =>
      if k' = k then (k, v) :: rest else (k', v') :: dictSet rest k v

/-- Python-dict lookup `d[k]`; `default` is returned on a missing key (the
source never looks up a missing key, so the default is inert). -/
def dictGet {α : Type} (default : α) : List (GState × α) → GState → α
  | [], _ => default
  | (k', v') :: rest, k => if k' = k then v' else dictGet default rest k

/-- The keys of an association-list dict, in order. -/
def dictKeys {α : Type} (d : List (GState × α)) : List GState := d.map Prod.fst

-- sanity: the state enumeration and sorted action order
example : states = [((0:Int),(0:Int)), (0,1), (0,2), (1,0), (1,1), (1,2), (2,0), (2,1), (2,2)] := by decide
example : sortedActionsMain = [D, L, R, U] := by decide

/-- A value table: the dict `V`. -/
abbrev VT := List (GState × ℚ)

/-- A policy table: the dict `policy`.  The stored value is an
`Option Action` because the source's action-selection loops initialise
`best_action = None` and store whatever the loop left there. -/
abbrev PT := List (GState × Option Action)

/-- The inner accumulation `total += prob * (rewards[state] + discount *
V[next_state])` of `value_iteration` (`main.py:82-84`). -/
def viTotal (rw : GState → ℚ) (V : VT) (state : GState) (action : Action) : ℚ :=
  (get_next_states state action).foldl
    (fun total x => total + x.2 * (rw state + discount * dictGet 0 V x.1)) 0

/-- The body of an action-selection loop (`main.py:82-87`, `policy.py:79-84`):
given the backed-up return `g action`, replace the running
`(max_val, best_action)` pair when `total > max_val`.  The accumulator `none`
stands for the initial `(-inf, None)` pair; a real number always exceeds
`-inf`, which is the `none` branch. -/
def selStep (g : Action → ℚ) (acc : Option ℚ × Option Action) (action : Action) :
    Option ℚ × Option Action :=
  let total := g action
  match acc.1 with
  | none => (some total, some action)
  | some max_val => if total > max_val then (some total, some action) else acc

/-- The action-selection loop of `value_iteration` (`main.py:79-87`):
`max_val = float('-inf'); best_action = None; for action in sorted(actions): …`. -/
def selectActionMain (rw : GState → ℚ) (V : VT) (state : GState) : Option ℚ × Option Action :=
  sortedActionsMain.foldl (selStep (viTotal rw V state)) (none, none)

/-- The body of the per-state loop of a `value_iteration` sweep
(`main.py:75-90`): skip terminal states; otherwise store
`new_V[state] = max_val` (always a `some`; `0` is an inert default),
`policy[state] = best_action`, and
`delta = max(delta, abs(V[state] - new_V[state]))`. -/
def viStep (rw : GState → ℚ) (V : VT) (acc : VT × PT × ℚ) (state : GState) :
    VT × PT × ℚ :=
  if state ∈ terminal_states then acc
  else
    let sel := selectActionMain rw V state
    let max_val := sel.1.getD 0
    (dictSet acc.1 state max_val,
     dictSet acc.2.1 state sel.2,
     max acc.2.2 |dictGet 0 V state - max_val|)

/-- One sweep of the `while True:` body of `value_iteration`
(`main.py:73-91`): starting from `new_V = V.copy()`, the current `policy` and
`delta = 0`, fold the per-state update over `states`. -/
def viSweep (rw : GState → ℚ) (V : VT) (policy : PT) : VT × PT × ℚ :=
  states.foldl (viStep rw V) (V, policy, 0)

/-- The `while True:` loop of `value_iteration` (`main.py:72-93`), with fuel:
run a sweep, commit `V = new_V`, stop when `delta < threshold`. -/
def viLoop (rw : GState → ℚ) (threshold : ℚ) : Nat → VT → PT → Option (VT × PT)
  | 0, _, _ => none
  | fuel + 1, V, policy =>
      let swept := viSweep rw V policy
      if swept.2.2 < threshold then some (swept.1, swept.2.1)
      else viLoop rw threshold fuel swept.1 swept.2.1

/-- `V = {s: 0 for s in states}` (`main.py:52`, `policy.py:53`). -/
def initialV : VT := states.map (fun s => (s, 0))

/-- `policy = {s: 'U' for s in states if s not in terminal_states}`
(`main.py:54`). -/
def initialPolicyMain : PT :=
  (states.filter (fun s => ¬ s ∈ terminal_states)).map (fun s => (s, some U))

/-- `value_iteration(r, threshold=1e-4)` (`main.py:51-95`): `V` starts at `0`
for every state, `policy` starts as `{s: 'U' for s in states if s not in
terminal_states}`, and the sweep loop runs to convergence (with fuel). -/
def value_iteration (r : ℚ) (fuel : Nat) (threshold : ℚ := 1 / 10000) :
    Option (VT × PT) :=
  viLoop (rewards r) threshold fuel initialV initialPolicyMain

/-- The inner accumulation `value += prob * (rewards[state] + discount *
V[next_state])` of `policy_evaluation` (`policy.py:61-63`). -/
def evalValue (rw : GState → ℚ) (V : VT) (state : GState) (a : Action) : ℚ :=
  (get_next_states state a).foldl
    (fun value x => value + x.2 * (rw state + discount * dictGet 0 V x.1)) 0

/-- The body of the per-state loop of a `policy_evaluation` sweep
(`policy.py:57-65`).  `a = policy[state]` reads the current policy; the
`.getD U` default is inert because every policy handed to
`policy_evaluation` maps every non-terminal state to `some` action. -/
def evalStep (policy : PT) (rw : GState → ℚ) (V : VT) (acc : VT × ℚ)
    (state : GState) : VT × ℚ :=
  if state ∈ terminal_states then acc
  else
    let a := (dictGet none policy state).getD U
    let value := evalValue rw V state a
    (dictSet acc.1 state value, max acc.2 |dictGet 0 V state - value|)

/-- One sweep of the `while True:` body of `policy_evaluation`
(`policy.py:55-65`): starting from `new_V = V.copy()` and `delta = 0`. -/
def evalSweep (policy : PT) (rw : GState → ℚ) (V : VT) : VT × ℚ :=
  states.foldl (evalStep policy rw V) (V, 0)

/-- The `while True:` loop of `policy_evaluation` (`policy.py:54-68`), with
fuel: run a sweep, commit `V = new_V`, stop when `delta < theta`. -/
def evalLoop (policy : PT) (rw : GState → ℚ) (theta : ℚ) : Nat → VT → Option VT
  | 0, _ => none
  | fuel + 1, V =>
      let swept := evalSweep policy rw V
      if swept.2 < theta then some swept.1
      else evalLoop policy rw theta fuel swept.1

/-- `policy_evaluation(policy, rewards, terminal_states, theta=1e-4)`
(`policy.py:52-69`): `V` starts at `0`, sweeps run until `delta < theta`. -/
def policy_evaluation (policy : PT) (rw : GState → ℚ) (fuel : Nat)
    (theta : ℚ := 1 / 10000) : Option VT :=
  evalLoop policy rw theta fuel (states.map (fun s => (s, 0)))

/-- The `(V, policy)` pair after `n` committed sweeps of the
`value_iteration` loop, starting from a given pair (the third component of a
sweep, `delta`, is recomputed from the pair where needed). -/
def viIterFrom (rw : GState → ℚ) (vp : VT × PT) : Nat → VT × PT
  | 0 => vp
  | n + 1 =>
      let swept := viSweep rw (viIterFrom rw vp n).1 (viIterFrom rw vp n).2
      (swept.1, swept.2.1)

/-- The `delta` computed by the `(n+1)`-st sweep of the `value_iteration`
loop started at `vp`. -/
def viDeltaFrom (rw : GState → ℚ) (vp : VT × PT) (n : Nat) : ℚ :=
  (viSweep rw (viIterFrom rw vp n).1 (viIterFrom rw vp n).2).2.2

/-- The value table after `n` committed sweeps of the `policy_evaluation`
loop, starting from a given table. -/
def evalIterFrom (policy : PT) (rw : GState → ℚ) (V : VT) : Nat → VT
  | 0 => V
  | n + 1 => (evalSweep policy rw (evalIterFrom policy rw V n)).1

/-- The `delta` computed by the `(n+1)`-st sweep of the `policy_evaluation`
loop started at `V`. -/
def evalDeltaFrom (policy : PT) (rw : GState → ℚ) (V : VT) (n : Nat) : ℚ :=
  (evalSweep policy rw (evalIterFrom policy rw V n)).2

/-- The inner accumulation of `policy_improvement` (`policy.py:79-81`),
identical in form to `viTotal`. -/
def improveValue (rw : GState → ℚ) (V : VT) (state : GState) (action : Action) : ℚ :=
  (get_next_states state action).foldl
    (fun value x => value + x.2 * (rw state + discount * dictGet 0 V x.1)) 0

/-- The action-selection loop of `policy_improvement` (`policy.py:76-84`):
`best_action = None; best_value = float('-inf'); for action in
sorted(actions): …`, the same loop shape as in `value_iteration`. -/
def selectActionImprove (rw : GState → ℚ) (V : VT) (state : GState) :
    Option ℚ × Option Action :=
  sortedActionsPolicy.foldl (selStep (improveValue rw V state)) (none, none)

/-- The body of the per-state loop of `policy_improvement`
(`policy.py:73-85`): `policy[state] = best_action`, terminal states
skipped. -/
def improveStep (rw : GState → ℚ) (V : VT) (policy : PT) (state : GState) : PT :=
  if state ∈ terminal_states then policy
  else dictSet policy state (selectActionImprove rw V state).2

/-- `policy_improvement(V, rewards, terminal_states)` (`policy.py:71-86`):
build a fresh policy dict, skipping terminal states. -/
def policy_improvement (V : VT) (rw : GState → ℚ) : PT :=
  states.foldl (improveStep rw V) []

/-- The `while not is_policy_stable:` loop of `policy_iteration`
(`policy.py:106-111`), with fuel: evaluate, improve, stop when the improved
policy equals the policy it was derived from (after `policy = new_policy`,
so the stable policy itself is returned).  Python compares the dicts
`policy == new_policy` by key set and values; here list equality coincides
with it: on the first round the initial dict has nine keys while an
improvement dict has eight (both unequal), and afterwards both sides are
improvement dicts built over `states` in the same key order. -/
def piLoop (rw : GState → ℚ) (evalFuel : Nat) : Nat → PT → Option (VT × PT)
  | 0, _ => none
  | fuel + 1, policy =>
      (policy_evaluation policy rw evalFuel).bind (fun V =>
        let new_policy := policy_improvement V rw
        if policy = new_policy then some (V, new_policy)
        else piLoop rw evalFuel fuel new_policy)

/-- `policy_iteration(r)` (`policy.py:88-113`).  The initial random policy
`{s: random.choice(actions) for s in states}` is modelled by the explicit
parameter `initChoice` giving the drawn action for each state (note it covers
all nine states, the terminal one included, exactly as in the source). -/
def policy_iteration (r : ℚ) (initChoice : GState → Action)
    (evalFuel outerFuel : Nat) : Option (VT × PT) :=
  let policy : PT := states.map (fun s => (s, some (initChoice s)))
  piLoop (rewards r) evalFuel outerFuel policy

/-! ## Spec-side definitions

These two definitions follow the specification's words, for comparison with
the code-derived backup computations. -/

/-- The backed-up return exactly as the spec writes it:
`Q(s,a) = Σ_outcomes prob * (reward(s) + discount * V_current(next_state))`,
with the reward of the *source* state `s`. -/
def bellmanBackup (rw : GState → ℚ) (V : VT) (s : GState) (a : Action) : ℚ :=
  ((get_next_states s a).map (fun x => x.2 * (rw s + discount * dictGet 0 V x.1))).sum

/-- The destination-reward variant the spec warns against: identical to
`bellmanBackup` except that the reward of the resulting state `next_state`
is used.  The code must *not* compute this. -/
def bellmanBackupDest (rw : GState → ℚ) (V : VT) (s : GState) (a : Action) : ℚ :=
  ((get_next_states s a).map (fun x => x.2 * (rw x.1 + discount * dictGet 0 V x.1))).sum

/-- The optimal policy for `r = -3` (the greedy/stable policy produced by
both solvers there): move right except in the last column, where the agent
moves up toward the goal. -/
def piStarM3 : GState → Action := fun s =>
  if s = ((1 : Int), (2 : Int)) ∨ s = ((2 : Int), (2 : Int)) then U else R

/-- The stable policy at `r = 0` (used as a cheap initial policy for
`policy_iteration`): `R` at `(0,1)`, `U` everywhere else. -/
def piStar0 : GState → Action := fun s =>
  if s = ((0 : Int), (1 : Int)) then R else U

/-- The policy-iteration fixed point at `r = -1629/50000` (`R` at `(0,0)` and
`(0,1)`, `U` elsewhere), used as the initial policy of the counterexample's
`policy_iteration` run. -/
def piStarCex : GState → Action := fun s =>
  if s = ((0 : Int), (0 : Int)) ∨ s = ((0 : Int), (1 : Int)) then R else U

/-- One of the two improvement-stable policies at `r = 677/5000`: `R` at
`(0,1)`, `U` everywhere else. -/
def piInitA : GState → Action := fun s =>
  if s = ((0 : Int), (1 : Int)) then R else U

/-- The other improvement-stable policy at `r = 677/5000`: `L` at `(0,0)` and
`(0,1)`, `U` everywhere else. -/
def piInitB : GState → Action := fun s =>
  if s = ((0 : Int), (0 : Int)) then L
  else if s = ((0 : Int), (1 : Int)) then L else U

/-! Converged tables, written out as literals so that each convergence run
is kernel-checked once, in its own lemma, and reused. -/

/-- The converged `policy_evaluation` table (theta `1e-4`) of the stable policy `piInitA` at `r = 677/5000` (51 sweeps). -/
def VA677 : VT :=
  [(((0 : Int), (0 : Int)), ((-32535647568444420890095076902707213781823572157124082577155457186006290484959444627089847077936153083986578242545422243801893243478146796323633075227 : ℚ) / 200000000000000000000000000000000000000000000000000000000000000000000000000000000000000000000000000000000000000000000000000000000000000000000000000000000)),
   (((0 : Int), (1 : Int)), ((-42769771264741811851490194497346600802017727044035819440670959365471296248584107143742232922204493131118739929134641990503790044108095922935095601154191 : ℚ) / 31250000000000000000000000000000000000000000000000000000000000000000000000000000000000000000000000000000000000000000000000000000000000000000000000000000)),
   (((0 : Int), (2 : Int)), (0 : ℚ)),
   (((1 : Int), (0 : Int)), ((-427715779891186861855712519334648734256569053403540267808473842974691138890393621026388623043883679788332268508801550759304484929851851731552443938968613 : ℚ) / 312500000000000000000000000000000000000000000000000000000000000000000000000000000000000000000000000000000000000000000000000000000000000000000000000000000)),
   (((1 : Int), (1 : Int)), ((-1471838873625171221897447214697296160334673986366165561058767311054389082111713712057991248031173168214772440648125700163839455137931860940269621094433551 : ℚ) / 625000000000000000000000000000000000000000000000000000000000000000000000000000000000000000000000000000000000000000000000000000000000000000000000000000000)),
   (((1 : Int), (2 : Int)), ((-42769771264741811851490194497346600802017727044035819440670959365471296248584107143742232922204493131118739929134641990503790044108095922935095601154191 : ℚ) / 31250000000000000000000000000000000000000000000000000000000000000000000000000000000000000000000000000000000000000000000000000000000000000000000000000000)),
   (((2 : Int), (0 : Int)), ((-209855505669068998665644307843316974545411390374801956499705856565580086714623936163768763082680644397987379358497943294255713200925950163636332091922083 : ℚ) / 78125000000000000000000000000000000000000000000000000000000000000000000000000000000000000000000000000000000000000000000000000000000000000000000000000000)),
   (((2 : Int), (1 : Int)), ((-33173411772474263044484451398403171717083242315453527485500563094879378041197662256638668560097322690153015432048036812947790065178706850127344596155997 : ℚ) / 9765625000000000000000000000000000000000000000000000000000000000000000000000000000000000000000000000000000000000000000000000000000000000000000000000000)),
   (((2 : Int), (2 : Int)), ((-26232272110854703874663216648572160149802927391129679891805999950691678845235305230623418103642214905143669579301212699882355679423384903711758480479199 : ℚ) / 9765625000000000000000000000000000000000000000000000000000000000000000000000000000000000000000000000000000000000000000000000000000000000000000000000000))]

/-- `policy_improvement` of `VA677` at `r = 677/5000`: the stable policy `piInitA` as a policy dict. -/
def PA677 : PT :=
  [(((0 : Int), (0 : Int)), some Action.U),
   (((0 : Int), (1 : Int)), some Action.R),
   (((1 : Int), (0 : Int)), some Action.U),
   (((1 : Int), (1 : Int)), some Action.U),
   (((1 : Int), (2 : Int)), some Action.U),
   (((2 : Int), (0 : Int)), some Action.U),
   (((2 : Int), (1 : Int)), some Action.U),
   (((2 : Int), (2 : Int)), some Action.U)]

/-- The converged `policy_evaluation` table of the stable policy `piInitB` at `r = 677/5000` (274 sweeps). -/
def VB677 : VT :=
  [(((0 : Int), (0 : Int)), ((6771997031467843019289629764651017495620269134598116409785076431758685871397107842341010757195555734943274273957109976042468348368827615903274356669982035733785681002223601195514896561769443403693548194906979446549723445070760287083982133993333710043121255036630830135970516378808444566565127428193269626606537585250162659530268960173498105655574856920868022805320987958810850699755636731880186252959164027037805639585068813218156541412856914851085194468888604795524596485481836392097903511859290524417223645960766369977444028779533934318942412768495273839229648085553983667840572010297109190741711483861653859560294514139547829526121050303317312934313242499407156521808157443715151779545750449019543450144213645557159625176586305571042141856042402614482353994552107819446985987804961131804889942214535230183688222274583 : ℚ) / 5000000000000000000000000000000000000000000000000000000000000000000000000000000000000000000000000000000000000000000000000000000000000000000000000000000000000000000000000000000000000000000000000000000000000000000000000000000000000000000000000000000000000000000000000000000000000000000000000000000000000000000000000000000000000000000000000000000000000000000000000000000000000000000000000000000000000000000000000000000000000000000000000000000000000000000000000000000000000000000000000000000000000000000000000000000000000000000000000000000000000000000000000000000000000000000000000000000000000000000000000000000000000000000000000000000000000000000000000000000000000000000000000000000000000000000000000000000000000000000000000000000000000000000000000000000000000000000000000000000000000000000000000000000000000000000000000000000)),
   (((0 : Int), (1 : Int)), ((-854488732219120546595514791529856577300227170708481000717048079088698962893921444691277240986935652127024362113017426236311716319384953685376173123722878321479927140918446686725083740836638670390891931768813728457168225742559988540792092020701124468429240043887276637077448974456003294418941745688501525119156206993535776382609126607933754845748769852242607009982537423015978182692307491901000148651027232161389647124281656127093399759396706720755765732972779271108328073952424375811974681149480031811362676519845863486572199547665594943003215785608493071050252288811534021587964983921327935616844371686543233302162523482597319403501399040763159060015657321753238533942389883423042153192152880138350770902953051582855117184185724289410635885934596053985612046533651356015550805784423849696048582698977041454962666718564747 : ℚ) / 625000000000000000000000000000000000000000000000000000000000000000000000000000000000000000000000000000000000000000000000000000000000000000000000000000000000000000000000000000000000000000000000000000000000000000000000000000000000000000000000000000000000000000000000000000000000000000000000000000000000000000000000000000000000000000000000000000000000000000000000000000000000000000000000000000000000000000000000000000000000000000000000000000000000000000000000000000000000000000000000000000000000000000000000000000000000000000000000000000000000000000000000000000000000000000000000000000000000000000000000000000000000000000000000000000000000000000000000000000000000000000000000000000000000000000000000000000000000000000000000000000000000000000000000000000000000000000000000000000000000000000000000000000000000000000000000000000)),
   (((0 : Int), (2 : Int)), (0 : ℚ)),
   (((1 : Int), (0 : Int)), ((-854488732219120546595514791529856577300227170708481000717048079088698962893921444691277240986935652127024362113017426236311716319384953685376173123722878321479927140918446686725083740836638670390891931768813728457168225742559988540792092020701124468429240043887276637077448974456003294418941745688501525119156206993535776382609126607933754845748769852242607009982537423015978182692307491901000148651027232161389647124281656127093399759396706720755765732972779271108328073952424375811974681149480031811362676519845863486572199547665594943003215785608493071050252288811534021587964983921327935616844371686543233302162523482597319403501399040763159060015657321753238533942389883423042153192152880138350770902953051582855117184185724289410635885934596053985612046533651356015550805784423849696048582698977041454962666718564747 : ℚ) / 625000000000000000000000000000000000000000000000000000000000000000000000000000000000000000000000000000000000000000000000000000000000000000000000000000000000000000000000000000000000000000000000000000000000000000000000000000000000000000000000000000000000000000000000000000000000000000000000000000000000000000000000000000000000000000000000000000000000000000000000000000000000000000000000000000000000000000000000000000000000000000000000000000000000000000000000000000000000000000000000000000000000000000000000000000000000000000000000000000000000000000000000000000000000000000000000000000000000000000000000000000000000000000000000000000000000000000000000000000000000000000000000000000000000000000000000000000000000000000000000000000000000000000000000000000000000000000000000000000000000000000000000000000000000000000000000000000)),
   (((1 : Int), (1 : Int)), ((-735483960611487510766437227388878379002893550796354068336512857326638011483362016868919089898056359489260820896322788257519390655935298779919343157362692657617069423946298238851523380029792329173234898625311286627072154645462569938009372118562239133302184973172077876565048055879535788256111284122025251593877327203392157645483586969514773033528943931053590959902906474389634340052950969543874151752201909765054401226603406308951741612877463157703238373068974663543807449116145882873849344685470866707624131066012960333816100100600445446796551506402025984445554884441376303076697434326631984082950538578054686311282158642989438281154770665897805719675459894843263196111935220090641104028056695192484713399393643546234172659045500135855668457010213458710789417129848720912862178617533565724565338641975148111537083556480997 : ℚ) / 312500000000000000000000000000000000000000000000000000000000000000000000000000000000000000000000000000000000000000000000000000000000000000000000000000000000000000000000000000000000000000000000000000000000000000000000000000000000000000000000000000000000000000000000000000000000000000000000000000000000000000000000000000000000000000000000000000000000000000000000000000000000000000000000000000000000000000000000000000000000000000000000000000000000000000000000000000000000000000000000000000000000000000000000000000000000000000000000000000000000000000000000000000000000000000000000000000000000000000000000000000000000000000000000000000000000000000000000000000000000000000000000000000000000000000000000000000000000000000000000000000000000000000000000000000000000000000000000000000000000000000000000000000000000000000000000000000)),
   (((1 : Int), (2 : Int)), ((-427646857821646560169960869020154252072653231594092289907839109807492427143574587307294449803096089641122086540850912468728609101522836670172293468474010391554281033092951542399718252481509638453426145548471431823351928044705073915174115707447677701463189026386661830978844515040770839998786746789698075059320176103279704704352606034856415416148365021501782385326952021467376314314787156645576174483549833627214364080577538481841425759476174320157724271691279005296652259702411958741332957861386829732585597639851565519310504712703636007317329079230096157642061416770675374679526186409223158158438445133934398337823434034333250216529576143867237556892000887771318812698713400979979147258541833224731555383471139332089986459238486071930395212555950386443359457602577800281996334931654744252132632517509769610665238077290309 : ℚ) / 312500000000000000000000000000000000000000000000000000000000000000000000000000000000000000000000000000000000000000000000000000000000000000000000000000000000000000000000000000000000000000000000000000000000000000000000000000000000000000000000000000000000000000000000000000000000000000000000000000000000000000000000000000000000000000000000000000000000000000000000000000000000000000000000000000000000000000000000000000000000000000000000000000000000000000000000000000000000000000000000000000000000000000000000000000000000000000000000000000000000000000000000000000000000000000000000000000000000000000000000000000000000000000000000000000000000000000000000000000000000000000000000000000000000000000000000000000000000000000000000000000000000000000000000000000000000000000000000000000000000000000000000000000000000000000000000000000)),
   (((2 : Int), (0 : Int)), ((-209738961010817316545451226938368652938139716940529909498519432749630223983805009929624445656367262353228848753134827111207014936055902966740991756380668975137959172211681118907611463717901319312956741592994449263582364891618414869349719896043253124343567215129919361026067477716335583248096744398537470766031940315822057276702783386493152998288649103141035691697183296058405395166789859496941386452280735184039624799409839636391858440009537457050751651296658406542572174968360697082740666295589193249588771542199328527514506711568158907353538638122842874394107095070160669636414882735973071902999125722214516199688877986373820308242701270434488378423289425370834321794441538275581445336304759937372305832333002694264074114974987696374229641553875810657794882208514477585247703332039445956156022851817845835900002622708467 : ℚ) / 78125000000000000000000000000000000000000000000000000000000000000000000000000000000000000000000000000000000000000000000000000000000000000000000000000000000000000000000000000000000000000000000000000000000000000000000000000000000000000000000000000000000000000000000000000000000000000000000000000000000000000000000000000000000000000000000000000000000000000000000000000000000000000000000000000000000000000000000000000000000000000000000000000000000000000000000000000000000000000000000000000000000000000000000000000000000000000000000000000000000000000000000000000000000000000000000000000000000000000000000000000000000000000000000000000000000000000000000000000000000000000000000000000000000000000000000000000000000000000000000000000000000000000000000000000000000000000000000000000000000000000000000000000000000000000000000000000)),
   (((2 : Int), (1 : Int)), ((-265282105938372945181270027018641673898574632105834192015484120651721961325893991007570018306091177900777289644045803319724310097524017881209381542149954008831398353355421788867685146666497364435081080901704663214131429653973365618621275061337867147346862582136432355184724479283529132828806468516674133813690962051168053530382632925470760318214628803928762729262578640748006270794666570904088902599086502997710723112888768462770180529791338248904255579481187318317570863147109278996240791282442969923823281544337876974729390296719022436122111703217732106510560135287311508893033701912968482801219371160835867692619451484917910284619037085063134898560610777381414064998734408452063397184133221358602186130785063071531328488969419315573160644123426684581199879692706560247140601974204754978954968652947618415166218507833587 : ℚ) / 78125000000000000000000000000000000000000000000000000000000000000000000000000000000000000000000000000000000000000000000000000000000000000000000000000000000000000000000000000000000000000000000000000000000000000000000000000000000000000000000000000000000000000000000000000000000000000000000000000000000000000000000000000000000000000000000000000000000000000000000000000000000000000000000000000000000000000000000000000000000000000000000000000000000000000000000000000000000000000000000000000000000000000000000000000000000000000000000000000000000000000000000000000000000000000000000000000000000000000000000000000000000000000000000000000000000000000000000000000000000000000000000000000000000000000000000000000000000000000000000000000000000000000000000000000000000000000000000000000000000000000000000000000000000000000000000000000)),
   (((2 : Int), (2 : Int)), ((-209834183898057454825981445797795011182771464707784314031466292866317670060851521387932234499060823186635469202618480298660681493777177208928320820530250088432020182371170896944534515060154056924333237385699150919103778446083567808155673280271712067033973209166068896279972382304662313958126549710868261694673836968855043927354126170082562392370686195325806710013105409174328819084431305426627628337084157322459286290101888900975939712877588168619931804386591435582410670312297353190071518534421151369120134863678054389251305907051071516680983722620332011630408955598922820087342635489334042382858451876083597089218618567277925766385123898895663756002066599473660455539638921322348682488118635461282520326181343406623597981052864048696166520437260342839143678726640610760892784461511002297374467423838943903475266143563819 : ℚ) / 78125000000000000000000000000000000000000000000000000000000000000000000000000000000000000000000000000000000000000000000000000000000000000000000000000000000000000000000000000000000000000000000000000000000000000000000000000000000000000000000000000000000000000000000000000000000000000000000000000000000000000000000000000000000000000000000000000000000000000000000000000000000000000000000000000000000000000000000000000000000000000000000000000000000000000000000000000000000000000000000000000000000000000000000000000000000000000000000000000000000000000000000000000000000000000000000000000000000000000000000000000000000000000000000000000000000000000000000000000000000000000000000000000000000000000000000000000000000000000000000000000000000000000000000000000000000000000000000000000000000000000000000000000000000000000000000000000))]

/-- `policy_improvement` of `VB677` at `r = 677/5000`: the stable policy `piInitB` as a policy dict. -/
def PB677 : PT :=
  [(((0 : Int), (0 : Int)), some Action.L),
   (((0 : Int), (1 : Int)), some Action.L),
   (((1 : Int), (0 : Int)), some Action.U),
   (((1 : Int), (1 : Int)), some Action.U),
   (((1 : Int), (2 : Int)), some Action.U),
   (((2 : Int), (0 : Int)), some Action.U),
   (((2 : Int), (1 : Int)), some Action.U),
   (((2 : Int), (2 : Int)), some Action.U)]

/-- The converged `policy_evaluation` table of `piStar0` at `r = 0` (67 sweeps); it coincides exactly with the table returned by `value_iteration 0`. -/
def V0pi : VT :=
  [(((0 : Int), (0 : Int)), ((-250913946045407851522494576867247523360898980492596221227600039614845760534930463874482575475186448311161763610563066580892988475971325857080848457782582860036408416807781948826895030340324521620987 : ℚ) / 200000000000000000000000000000000000000000000000000000000000000000000000000000000000000000000000000000000000000000000000000000000000000000000000000000000000000000000000000000000000000000000000000000)),
   (((0 : Int), (1 : Int)), ((-172761394674874818152136215270064466181128629438730110229269344710248655303342306702677155598062877259709936581045207514822616078478557446528631104744734473570800496164906985662040757479735399649697 : ℚ) / 125000000000000000000000000000000000000000000000000000000000000000000000000000000000000000000000000000000000000000000000000000000000000000000000000000000000000000000000000000000000000000000000000000)),
   (((0 : Int), (2 : Int)), (0 : ℚ)),
   (((1 : Int), (0 : Int)), ((-155299985638169125938500121121550329607524595694206342144057885538160003889781060158485137012562873880171373184277220148749449993424117681558151906760790296181462422007067640896272683417960194540411 : ℚ) / 62500000000000000000000000000000000000000000000000000000000000000000000000000000000000000000000000000000000000000000000000000000000000000000000000000000000000000000000000000000000000000000000000000)),
   (((1 : Int), (1 : Int)), ((-154839266209345146745020217273195275677013865875506930151395111410445704199877427481001318299226838109054825227259649599272250173785409649159734014368899895925817150944260379583356994021135339350133 : ℚ) / 62500000000000000000000000000000000000000000000000000000000000000000000000000000000000000000000000000000000000000000000000000000000000000000000000000000000000000000000000000000000000000000000000000)),
   (((1 : Int), (2 : Int)), ((-172761394674874818152136215270064466181128629438730110229269344710248655303342306702677155598062877259709936581045207514822616078478557446528631104744734473570800496164906985662040757479735399649697 : ℚ) / 125000000000000000000000000000000000000000000000000000000000000000000000000000000000000000000000000000000000000000000000000000000000000000000000000000000000000000000000000000000000000000000000000000)),
   (((2 : Int), (0 : Int)), ((-28821651461707625468603850104770840446055975844414149928315150045770767103720720848054830083834294979261521048939373941289721249745131857274785603998399561229656104888415440637702729532948411837711 : ℚ) / 7812500000000000000000000000000000000000000000000000000000000000000000000000000000000000000000000000000000000000000000000000000000000000000000000000000000000000000000000000000000000000000000000000)),
   (((2 : Int), (1 : Int)), ((-56196998363775132065334737431479453947873373196915972384323324809800737196692048104903734238341265221357036893043475655953325660896800023767551093464814320126074910302262364785980134992026459485783 : ℚ) / 15625000000000000000000000000000000000000000000000000000000000000000000000000000000000000000000000000000000000000000000000000000000000000000000000000000000000000000000000000000000000000000000000000)),
   (((2 : Int), (2 : Int)), ((-21249625478197781093144106193564151151528916632612352518953746703499599601745067256669076106353041535975758926401023044130244182870907444479041570593236383805164876572308898633170310670016814190489 : ℚ) / 7812500000000000000000000000000000000000000000000000000000000000000000000000000000000000000000000000000000000000000000000000000000000000000000000000000000000000000000000000000000000000000000000000))]

/-- `policy_improvement` of `V0pi` at `r = 0`: the stable policy, also the policy returned by `value_iteration 0`. -/
def P0pi : PT :=
  [(((0 : Int), (0 : Int)), some Action.U),
   (((0 : Int), (1 : Int)), some Action.R),
   (((1 : Int), (0 : Int)), some Action.U),
   (((1 : Int), (1 : Int)), some Action.U),
   (((1 : Int), (2 : Int)), some Action.U),
   (((2 : Int), (0 : Int)), some Action.U),
   (((2 : Int), (1 : Int)), some Action.U),
   (((2 : Int), (2 : Int)), some Action.U)]

/-- The converged `policy_evaluation` table of `piStarM3` at `r = -3` (17 sweeps). -/
def Vm3pi : VT :=
  [(((0 : Int), (0 : Int)), ((-1251221243457233211198826781158482531857523538719 : ℚ) / 250000000000000000000000000000000000000000000000)),
   (((0 : Int), (1 : Int)), ((-34955828254595321149560472548169111515714560593 : ℚ) / 25000000000000000000000000000000000000000000000)),
   (((0 : Int), (2 : Int)), (0 : ℚ)),
   (((1 : Int), (0 : Int)), ((-2030358580611518666831845874493293920777311625757 : ℚ) / 500000000000000000000000000000000000000000000000)),
   (((1 : Int), (1 : Int)), ((-328042974675295234769959609169103348667038512567 : ℚ) / 125000000000000000000000000000000000000000000000)),
   (((1 : Int), (2 : Int)), ((-34955828254595321149560472548169111515714560593 : ℚ) / 25000000000000000000000000000000000000000000000)),
   (((2 : Int), (0 : Int)), ((-2458473815307918807434448945336651811907849804453 : ℚ) / 500000000000000000000000000000000000000000000000)),
   (((2 : Int), (1 : Int)), ((-119484196091874465978150469055499834817278406757 : ℚ) / 31250000000000000000000000000000000000000000000)),
   (((2 : Int), (2 : Int)), ((-68976615878237835885476943088295569749610035613 : ℚ) / 25000000000000000000000000000000000000000000000))]

/-- `policy_improvement` of `Vm3pi` at `r = -3`: the stable policy, also the policy returned by `value_iteration (-3)`. -/
def Pm3pi : PT :=
  [(((0 : Int), (0 : Int)), some Action.R),
   (((0 : Int), (1 : Int)), some Action.R),
   (((1 : Int), (0 : Int)), some Action.R),
   (((1 : Int), (1 : Int)), some Action.R),
   (((1 : Int), (2 : Int)), some Action.U),
   (((2 : Int), (0 : Int)), some Action.R),
   (((2 : Int), (1 : Int)), some Action.R),
   (((2 : Int), (2 : Int)), some Action.U)]

/-- The converged `policy_evaluation` table of `piStarCex` at `r = -1629/50000` (17 sweeps). -/
def Vcexpi : VT :=
  [(((0 : Int), (0 : Int)), ((-77821626702451335608753026294931405566122642157434861 : ℚ) / 50000000000000000000000000000000000000000000000000000)),
   (((0 : Int), (1 : Int)), ((-8658316185357809688430078897148667349574078063609209 : ℚ) / 6250000000000000000000000000000000000000000000000000)),
   (((0 : Int), (2 : Int)), (0 : ℚ)),
   (((1 : Int), (0 : Int)), ((-17209082237490524181839678803161204114906565274008777 : ℚ) / 6250000000000000000000000000000000000000000000000000)),
   (((1 : Int), (1 : Int)), ((-15668216906843276340433709882847751019287872441187033 : ℚ) / 6250000000000000000000000000000000000000000000000000)),
   (((1 : Int), (2 : Int)), ((-8658316185357809688430078897148667349574078063609209 : ℚ) / 6250000000000000000000000000000000000000000000000000)),
   (((2 : Int), (0 : Int)), ((-3070820262455575073166431326812233930469969818118287 : ℚ) / 781250000000000000000000000000000000000000000000000)),
   (((2 : Int), (1 : Int)), ((-2847397839962072156758696992785066354420289461153783 : ℚ) / 781250000000000000000000000000000000000000000000000)),
   (((2 : Int), (2 : Int)), ((-85252334184029476171719589763365873478148064928447 : ℚ) / 31250000000000000000000000000000000000000000000000))]

/-- `policy_improvement` of `Vcexpi` at `r = -1629/50000`: the stable policy there. -/
def Pcexpi : PT :=
  [(((0 : Int), (0 : Int)), some Action.R),
   (((0 : Int), (1 : Int)), some Action.R),
   (((1 : Int), (0 : Int)), some Action.U),
   (((1 : Int), (1 : Int)), some Action.U),
   (((1 : Int), (2 : Int)), some Action.U),
   (((2 : Int), (0 : Int)), some Action.U),
   (((2 : Int), (1 : Int)), some Action.U),
   (((2 : Int), (2 : Int)), some Action.U)]

/-- The value table returned by `value_iteration (-3)` (18 sweeps). -/
def Vm3vi : VT :=
  [(((0 : Int), (0 : Int)), ((-2502447298144590059822398029855967497562077485441913 : ℚ) / 500000000000000000000000000000000000000000000000000)),
   (((0 : Int), (1 : Int)), ((-139823498718651133390254373482504949578858956333407 : ℚ) / 100000000000000000000000000000000000000000000000000)),
   (((0 : Int), (2 : Int)), (0 : ℚ)),
   (((1 : Int), (0 : Int)), ((-2030370060110127424658985112092158010329974879756121 : ℚ) / 500000000000000000000000000000000000000000000000000)),
   (((1 : Int), (1 : Int)), ((-1312175576327130546680360830408688861212771366110419 : ℚ) / 500000000000000000000000000000000000000000000000000)),
   (((1 : Int), (2 : Int)), ((-139823498718651133390254373482504949578858956333407 : ℚ) / 100000000000000000000000000000000000000000000000000)),
   (((2 : Int), (0 : Int)), ((-1229248293147763268822866171629865619301155906931127 : ℚ) / 250000000000000000000000000000000000000000000000000)),
   (((2 : Int), (1 : Int)), ((-955878452787455518482187011625038148352101816710313 : ℚ) / 250000000000000000000000000000000000000000000000000)),
   (((2 : Int), (2 : Int)), ((-1379536687576294232007492053196271870526765866388417 : ℚ) / 500000000000000000000000000000000000000000000000000))]

/-! ## Boolean table comparison

Deciding `(a : ℚ) = b` unfolds the structurally recursive `Nat.decEq` on the
numerators, which is infeasible for the long numerators of the converged
tables above, while `Rat.blt` reduces through the accelerated integer
arithmetic.  The convergence-run lemmas below therefore check table equality
through a boolean comparator built on `Rat.blt`, converted to propositional
equality once and for all by `optVTBeq_eq` and `optVPBeq_eq`. -/

/-- Boolean equality on `ℚ` through two `Rat.blt` comparisons. -/
def qBeq (a b : ℚ) : Bool := !(Rat.blt a b) && !(Rat.blt b a)

/-- Boolean equality of value tables: equal keys, `qBeq`-equal values. -/
def vtBeq : VT → VT → Bool
  | [], [] => true
  | (s, q) :: v, (t, r) :: w => decide (s = t) && qBeq q r && vtBeq v w
  | _, _ => false

/-- Boolean equality of `policy_evaluation` results. -/
def optVTBeq : Option VT → Option VT → Bool
  | none, none => true
  | some v, some w => vtBeq v w
  | _, _ => false

/-- Boolean equality of `value_iteration` / `policy_iteration` results. -/
def optVPBeq : Option (VT × PT) → Option (VT × PT) → Bool
  | none, none => true
  | some (v, p), some (w, q) => vtBeq v w && decide (p = q)
  | _, _ => false

/-! ## Helper lemmas -/

theorem qBeq_eq : ∀ {a b : ℚ}, qBeq a b = true → a = b := by
  intro a b h
  simp only [qBeq, Bool.and_eq_true, Bool.not_eq_true'] at h
  exact le_antisymm (show a ≤ b from h.2) (show b ≤ a from h.1)

theorem vtBeq_eq : ∀ {v w : VT}, vtBeq v w = true → v = w
  | [], [], _ => rfl
  | [], _ :: _, h => by simp [vtBeq] at h
  | _ :: _, [], h => by simp [vtBeq] at h
  | (s, q) :: v, (t, r) :: w, h => by
    simp only [vtBeq, Bool.and_eq_true, decide_eq_true_eq] at h
    rw [h.1.1, qBeq_eq h.1.2, vtBeq_eq h.2]

theorem optVTBeq_eq : ∀ {o1 o2 : Option VT}, optVTBeq o1 o2 = true → o1 = o2
  | none, none, _ => rfl
  | none, some _, h => by simp [optVTBeq] at h
  | some _, none, h => by simp [optVTBeq] at h
  | some v, some w, h => by rw [vtBeq_eq (show vtBeq v w = true from h)]

theorem optVPBeq_eq : ∀ {o1 o2 : Option (VT × PT)}, optVPBeq o1 o2 = true → o1 = o2
  | none, none, _ => rfl
  | none, some _, h => by simp [optVPBeq] at h
  | some _, none, h => by simp [optVPBeq] at h
  | some (v, p), some (w, q), h => by
    simp only [optVPBeq, Bool.and_eq_true, decide_eq_true_eq] at h
    rw [vtBeq_eq h.1, h.2]

theorem foldl_add_map {α : Type} (f : α → ℚ) (l : List α) (c : ℚ) :
    l.foldl (fun t x => t + f x) c = c + (l.map f).sum := by
  induction l generalizing c with
  | nil => simp
  | cons x xs ih => simp [List.foldl_cons, ih (c + f x), add_assoc]

theorem dictGet_dictSet {α : Type} (d : α) (l : List (GState × α)) (k k' : GState) (v : α) :
    dictGet d (dictSet l k v) k' = if k = k' then v else dictGet d l k' := by
  induction l with
  | nil =>
      by_cases h : k = k' <;> simp [dictSet, dictGet, h]
  | cons p rest ih =>
      obtain ⟨k'', v''⟩ := p
      by_cases h1 : k'' = k
      · subst h1
        by_cases h2 : k'' = k' <;> simp [dictSet, dictGet, h2]
      · by_cases h2 : k'' = k'
        · subst h2
          have h3 : ¬ k = k'' := fun h => h1 h.symm
          simp [dictSet, dictGet, h1, h3]
        · simp [dictSet, dictGet, h1, h2, ih]

theorem mem_dictKeys_dictSet {α : Type} (l : List (GState × α)) (k k' : GState) (v : α) :
    k' ∈ dictKeys (dictSet l k v) ↔ k' = k ∨ k' ∈ dictKeys l := by
  induction l with
  | nil => simp [dictSet, dictKeys]
  | cons p rest ih =>
      obtain ⟨k'', v''⟩ := p
      by_cases h1 : k'' = k
      · subst h1
        simp [dictSet, dictKeys]
      · simp [dictSet, dictKeys, h1] at ih ⊢
        tauto

theorem viStep_foldl_value (rw : GState → ℚ) (V : VT) (ks : List GState)
    (acc : VT × PT × ℚ) (s : GState) :
    dictGet 0 (ks.foldl (viStep rw V) acc).1 s =
      if s ∈ ks ∧ ¬ s ∈ terminal_states
      then (selectActionMain rw V s).1.getD 0
      else dictGet 0 acc.1 s := by
  induction ks generalizing acc with
  | nil => simp
  | cons k tl ih =>
      rw [List.foldl_cons, ih]
      by_cases hk : k ∈ terminal_states
      · by_cases hs : s ∈ tl ∧ ¬ s ∈ terminal_states
        · simp [viStep, hk, hs, List.mem_cons, hs.1]
        · have hcons : ¬ (s ∈ k :: tl ∧ ¬ s ∈ terminal_states) := by
            rintro ⟨hmem, hnt⟩
            rcases List.mem_cons.mp hmem with rfl | hmem'
            · exact hnt hk
            · exact hs ⟨hmem', hnt⟩
          simp only [List.mem_cons] at hcons
          simp [viStep, hk, hs, hcons]
      · by_cases hs : s ∈ tl ∧ ¬ s ∈ terminal_states
        · simp [viStep, hk, hs, List.mem_cons, Or.inr hs.1]
        · by_cases hks : k = s
          · subst hks
            simp [viStep, hk, hs, dictGet_dictSet, List.mem_cons]
          · have hcons : ¬ (s ∈ k :: tl ∧ ¬ s ∈ terminal_states) := by
              rintro ⟨hmem, hnt⟩
              rcases List.mem_cons.mp hmem with rfl | hmem'
              · exact hks rfl
              · exact hs ⟨hmem', hnt⟩
            simp only [List.mem_cons] at hcons
            simp [viStep, hk, hs, hcons, dictGet_dictSet, hks]

theorem viStep_foldl_policy (rw : GState → ℚ) (V : VT) (ks : List GState)
    (acc : VT × PT × ℚ) (s : GState) :
    dictGet none (ks.foldl (viStep rw V) acc).2.1 s =
      if s ∈ ks ∧ ¬ s ∈ terminal_states
      then (selectActionMain rw V s).2
      else dictGet none acc.2.1 s := by
  induction ks generalizing acc with
  | nil => simp
  | cons k tl ih =>
      rw [List.foldl_cons, ih]
      by_cases hk : k ∈ terminal_states
      · by_cases hs : s ∈ tl ∧ ¬ s ∈ terminal_states
        · simp [viStep, hk, hs, List.mem_cons, hs.1]
        · have hcons : ¬ (s ∈ k :: tl ∧ ¬ s ∈ terminal_states) := by
            rintro ⟨hmem, hnt⟩
            rcases List.mem_cons.mp hmem with rfl | hmem'
            · exact hnt hk
            · exact hs ⟨hmem', hnt⟩
          simp only [List.mem_cons] at hcons
          simp [viStep, hk, hs, hcons]
      · by_cases hs : s ∈ tl ∧ ¬ s ∈ terminal_states
        · simp [viStep, hk, hs, List.mem_cons, Or.inr hs.1]
        · by_cases hks : k = s
          · subst hks
            simp [viStep, hk, hs, dictGet_dictSet, List.mem_cons]
          · have hcons : ¬ (s ∈ k :: tl ∧ ¬ s ∈ terminal_states) := by
              rintro ⟨hmem, hnt⟩
              rcases List.mem_cons.mp hmem with rfl | hmem'
              · exact hks rfl
              · exact hs ⟨hmem', hnt⟩
            simp only [List.mem_cons] at hcons
            simp [viStep, hk, hs, hcons, dictGet_dictSet, hks]

theorem viStep_foldl_keys (rw : GState → ℚ) (V : VT) (ks : List GState)
    (acc : VT × PT × ℚ) (s₀ : GState) (h₀ : s₀ ∈ terminal_states) :
    (s₀ ∈ dictKeys (ks.foldl (viStep rw V) acc).2.1 ↔ s₀ ∈ dictKeys acc.2.1) := by
  induction ks generalizing acc with
  | nil => simp
  | cons k tl ih =>
      rw [List.foldl_cons, ih]
      by_cases hk : k ∈ terminal_states
      · simp [viStep, hk]
      · have hne : ¬ s₀ = k := fun h => hk (h ▸ h₀)
        simp [viStep, hk, mem_dictKeys_dictSet, hne]

theorem viStep_foldl_delta (rw : GState → ℚ) (V : VT) (ks : List GState)
    (acc : VT × PT × ℚ) :
    (ks.foldl (viStep rw V) acc).2.2 =
      (ks.filter (fun s => decide (¬ s ∈ terminal_states))).foldl
        (fun δ s => max δ |dictGet 0 V s - (selectActionMain rw V s).1.getD 0|)
        acc.2.2 := by
  induction ks generalizing acc with
  | nil => simp
  | cons k tl ih =>
      rw [List.foldl_cons, ih]
      by_cases hk : k ∈ terminal_states
      · simp [viStep, hk, List.filter_cons]
      · simp [viStep, hk, List.filter_cons]

theorem evalStep_foldl_value (policy : PT) (rw : GState → ℚ) (V : VT)
    (ks : List GState) (acc : VT × ℚ) (s : GState) :
    dictGet 0 (ks.foldl (evalStep policy rw V) acc).1 s =
      if s ∈ ks ∧ ¬ s ∈ terminal_states
      then evalValue rw V s ((dictGet none policy s).getD U)
      else dictGet 0 acc.1 s := by
  induction ks generalizing acc with
  | nil => simp
  | cons k tl ih =>
      rw [List.foldl_cons, ih]
      by_cases hk : k ∈ terminal_states
      · by_cases hs : s ∈ tl ∧ ¬ s ∈ terminal_states
        · simp [evalStep, hk, hs, List.mem_cons, hs.1]
        · have hcons : ¬ (s ∈ k :: tl ∧ ¬ s ∈ terminal_states) := by
            rintro ⟨hmem, hnt⟩
            rcases List.mem_cons.mp hmem with rfl | hmem'
            · exact hnt hk
            · exact hs ⟨hmem', hnt⟩
          simp only [List.mem_cons] at hcons
          simp [evalStep, hk, hs, hcons]
      · by_cases hs : s ∈ tl ∧ ¬ s ∈ terminal_states
        · simp [evalStep, hk, hs, List.mem_cons, Or.inr hs.1]
        · by_cases hks : k = s
          · subst hks
            simp [evalStep, hk, hs, dictGet_dictSet, List.mem_cons]
          · have hcons : ¬ (s ∈ k :: tl ∧ ¬ s ∈ terminal_states) := by
              rintro ⟨hmem, hnt⟩
              rcases List.mem_cons.mp hmem with rfl | hmem'
              · exact hks rfl
              · exact hs ⟨hmem', hnt⟩
            simp only [List.mem_cons] at hcons
            simp [evalStep, hk, hs, hcons, dictGet_dictSet, hks]

theorem evalStep_foldl_delta (policy : PT) (rw : GState → ℚ) (V : VT)
    (ks : List GState) (acc : VT × ℚ) :
    (ks.foldl (evalStep policy rw V) acc).2 =
      (ks.filter (fun s => decide (¬ s ∈ terminal_states))).foldl
        (fun δ s => max δ
          |dictGet 0 V s - evalValue rw V s ((dictGet none policy s).getD U)|)
        acc.2 := by
  induction ks generalizing acc with
  | nil => simp
  | cons k tl ih =>
      rw [List.foldl_cons, ih]
      by_cases hk : k ∈ terminal_states
      · simp [evalStep, hk, List.filter_cons]
      · simp [evalStep, hk, List.filter_cons]

theorem improveStep_foldl (rw : GState → ℚ) (V : VT) (ks : List GState)
    (p0 : PT) (s : GState) :
    dictGet none (ks.foldl (improveStep rw V) p0) s =
      if s ∈ ks ∧ ¬ s ∈ terminal_states
      then (selectActionImprove rw V s).2
      else dictGet none p0 s := by
  induction ks generalizing p0 with
  | nil => simp
  | cons k tl ih =>
      rw [List.foldl_cons, ih]
      by_cases hk : k ∈ terminal_states
      · by_cases hs : s ∈ tl ∧ ¬ s ∈ terminal_states
        · simp [improveStep, hk, hs, List.mem_cons, hs.1]
        · have hcons : ¬ (s ∈ k :: tl ∧ ¬ s ∈ terminal_states) := by
            rintro ⟨hmem, hnt⟩
            rcases List.mem_cons.mp hmem with rfl | hmem'
            · exact hnt hk
            · exact hs ⟨hmem', hnt⟩
          simp only [List.mem_cons] at hcons
          simp [improveStep, hk, hs, hcons]
      · by_cases hs : s ∈ tl ∧ ¬ s ∈ terminal_states
        · simp [improveStep, hk, hs, List.mem_cons, Or.inr hs.1]
        · by_cases hks : k = s
          · subst hks
            simp [improveStep, hk, hs, dictGet_dictSet, List.mem_cons]
          · have hcons : ¬ (s ∈ k :: tl ∧ ¬ s ∈ terminal_states) := by
              rintro ⟨hmem, hnt⟩
              rcases List.mem_cons.mp hmem with rfl | hmem'
              · exact hks rfl
              · exact hs ⟨hmem', hnt⟩
            simp only [List.mem_cons] at hcons
            simp [improveStep, hk, hs, hcons, dictGet_dictSet, hks]

theorem improveStep_foldl_keys (rw : GState → ℚ) (V : VT) (ks : List GState)
    (p0 : PT) (s₀ : GState) (h₀ : s₀ ∈ terminal_states) :
    (s₀ ∈ dictKeys (ks.foldl (improveStep rw V) p0) ↔ s₀ ∈ dictKeys p0) := by
  induction ks generalizing p0 with
  | nil => simp
  | cons k tl ih =>
      rw [List.foldl_cons, ih]
      by_cases hk : k ∈ terminal_states
      · simp [improveStep, hk]
      · have hne : ¬ s₀ = k := fun h => hk (h ▸ h₀)
        simp [improveStep, hk, mem_dictKeys_dictSet, hne]

/-! ## Claims about the transition model -/

/-- C2: for every state of the 3×3 grid and every action,
`get_next_states(state, action)` returns exactly 3 `(next_state, probability)`
entries, with probability `0.8` for the primary direction and `0.1` for each
of the two perpendicular directions (in that order), and the three
probabilities sum to exactly `1`. -/
theorem get_next_states_three_outcomes (s : GState) (hs : s ∈ states)
    (a : Action) (ha : a ∈ actions) :
    (get_next_states s a).length = 3 ∧
    (get_next_states s a).map Prod.snd = [8 / 10, 1 / 10, 1 / 10] ∧
    ((get_next_states s a).map Prod.snd).sum = 1 := by
  have h : ∀ s ∈ states, ∀ a ∈ actions,
      (get_next_states s a).length = 3 ∧
      (get_next_states s a).map Prod.snd = [8 / 10, 1 / 10, 1 / 10] ∧
      ((get_next_states s a).map Prod.snd).sum = 1 := by
    with_unfolding_all decide
  exact h s hs a ha

/-- Witness for `get_next_states_three_outcomes` at state `(0,0)`, action `U`. -/
theorem get_next_states_three_outcomes_witness :
    ((0 : Int), (0 : Int)) ∈ states ∧ U ∈ actions ∧
    ((get_next_states ((0 : Int), (0 : Int)) U).length = 3 ∧
     (get_next_states ((0 : Int), (0 : Int)) U).map Prod.snd = [8 / 10, 1 / 10, 1 / 10] ∧
     ((get_next_states ((0 : Int), (0 : Int)) U).map Prod.snd).sum = 1) :=
  ⟨by decide, by decide,
   get_next_states_three_outcomes _ (by decide) _ (by decide)⟩

/-- C3: for every in-grid state and action, every resulting state of
`get_next_states` is in the grid; whenever the displacement of the primary or
of a perpendicular direction leaves the grid, the corresponding outcome is the
originating state with the scheduled probability; in particular for state
`(0,0)` and action `U` the primary outcome is `((0,0), 0.8)`. -/
theorem get_next_states_stay_in_grid (s : GState) (hs : s ∈ states)
    (a : Action) (ha : a ∈ actions) :
    (∀ x ∈ get_next_states s a, x.1 ∈ states) ∧
    (∀ q ∈ (get_next_states s a).zip
        ((a :: perpendiculars a).zip [(8 : ℚ) / 10, 1 / 10, 1 / 10]),
      in_grid (s.1 + (action_effects q.2.1).1) (s.2 + (action_effects q.2.1).2) = false →
        q.1 = (s, q.2.2)) ∧
    (get_next_states ((0 : Int), (0 : Int)) U).head? = some (((0 : Int), (0 : Int)), 8 / 10) := by
  have h : ∀ s ∈ states, ∀ a ∈ actions,
      (∀ x ∈ get_next_states s a, x.1 ∈ states) ∧
      (∀ q ∈ (get_next_states s a).zip
          ((a :: perpendiculars a).zip [(8 : ℚ) / 10, 1 / 10, 1 / 10]),
        in_grid (s.1 + (action_effects q.2.1).1) (s.2 + (action_effects q.2.1).2) = false →
          q.1 = (s, q.2.2)) := by
    with_unfolding_all decide
  exact ⟨(h s hs a ha).1, (h s hs a ha).2, by with_unfolding_all decide⟩

/-- Witness for `get_next_states_stay_in_grid` at state `(0,0)`, action `U`. -/
theorem get_next_states_stay_in_grid_witness :
    ((0 : Int), (0 : Int)) ∈ states ∧ U ∈ actions ∧
    (∀ x ∈ get_next_states ((0 : Int), (0 : Int)) U, x.1 ∈ states) :=
  ⟨by decide, by decide,
   (get_next_states_stay_in_grid _ (by decide) _ (by decide)).1⟩

/-! ## Claims about the action-iteration order -/

/-- C7 counterexample: the two variants do *not* enumerate actions in
different orders — `main.py:81` and `policy.py:78` both iterate
`sorted(actions)`, and that common order is not the insertion order
`['U','D','L','R']`. -/
theorem both_variants_sort_actions :
    sortedActionsMain = sortedActionsPolicy ∧ sortedActionsMain ≠ actions := by
  constructor
  · rfl
  · decide

/-- C7 as amended: both variants enumerate actions in the same sorted order
`['D','L','R','U']`; neither uses the insertion order of the `actions` list,
and the two action-selection loops are one and the same function, so a tie
between two actions is broken identically in both variants. -/
theorem action_order_identical :
    sortedActionsMain = [D, L, R, U] ∧ sortedActionsPolicy = [D, L, R, U] ∧
    sortedActionsMain ≠ actions ∧ selectActionMain = selectActionImprove := by
  refine ⟨by decide, by decide, by decide, rfl⟩

/-! ## The Bellman backup uses the source state's reward -/

/-- C4: in all three backup computations — `value_iteration`'s action
maximisation (`main.py:82-84`), `policy_evaluation` (`policy.py:61-63`), and
`policy_improvement` (`policy.py:79-81`) — the backed-up return equals
`Σ_outcomes prob * (reward(s) + discount * V(next_state))` with the reward of
the *source* state, and it differs from the destination-reward variant
(witnessed concretely at state `(1,2)`, action `U`, the zero value table). -/
theorem backup_uses_source_reward :
    (∀ rw V s a, viTotal rw V s a = bellmanBackup rw V s a) ∧
    (∀ rw V s a, evalValue rw V s a = bellmanBackup rw V s a) ∧
    (∀ rw V s a, improveValue rw V s a = bellmanBackup rw V s a) ∧
    viTotal (rewards 0) initialV ((1 : Int), (2 : Int)) U ≠
      bellmanBackupDest (rewards 0) initialV ((1 : Int), (2 : Int)) U := by
  refine ⟨?_, ?_, ?_, by with_unfolding_all decide⟩ <;>
    · intro rw V s a
      simpa using foldl_add_map
        (fun x => x.2 * (rw s + discount * dictGet 0 V x.1)) (get_next_states s a) 0

/-! ## The action-selection loops always select an action -/

theorem selStep_none (g : Action → ℚ) (b : Option Action) (a : Action) :
    selStep g (none, b) a = (some (g a), some a) := rfl

theorem selStep_some (g : Action → ℚ) (mv : ℚ) (b : Option Action) (a : Action) :
    selStep g (some mv, b) a =
      if g a > mv then (some (g a), some a) else (some mv, b) := rfl

theorem selFold_fst (g : Action → ℚ) (l : List Action) (mv : ℚ) (b : Option Action) :
    (l.foldl (selStep g) (some mv, b)).1 =
      some (l.foldl (fun m a => max m (g a)) mv) := by
  induction l generalizing mv b with
  | nil => rfl
  | cons x xs ih =>
      rw [List.foldl_cons, selStep_some, List.foldl_cons]
      by_cases h : g x > mv
      · rw [if_pos h, ih, max_eq_right (le_of_lt h)]
      · rw [if_neg h, ih, max_eq_left (not_lt.mp h)]

theorem selFold_snd (g : Action → ℚ) (l : List Action) (mv : ℚ) (b : Action) :
    ∃ a, (l.foldl (selStep g) (some mv, some b)).2 = some a ∧ (a = b ∨ a ∈ l) := by
  induction l generalizing mv b with
  | nil => exact ⟨b, rfl, Or.inl rfl⟩
  | cons x xs ih =>
      rw [List.foldl_cons, selStep_some]
      by_cases h : g x > mv
      · rw [if_pos h]
        obtain ⟨a, ha, hmem⟩ := ih (g x) x
        exact ⟨a, ha, by rcases hmem with rfl | hm <;> simp [*]⟩
      · rw [if_neg h]
        obtain ⟨a, ha, hmem⟩ := ih mv b
        exact ⟨a, ha, by rcases hmem with rfl | hm <;> simp [*]⟩

theorem selectActionMain_fst (rw : GState → ℚ) (V : VT) (s : GState) :
    (selectActionMain rw V s).1 =
      some (max (max (max (viTotal rw V s D) (viTotal rw V s L))
        (viTotal rw V s R)) (viTotal rw V s U)) := by
  have h : sortedActionsMain = [D, L, R, U] := by decide
  rw [selectActionMain, h, List.foldl_cons, selStep_none,
    selFold_fst (viTotal rw V s) [L, R, U] (viTotal rw V s D) (some D)]
  rfl

theorem selectActionMain_some (rw : GState → ℚ) (V : VT) (s : GState) :
    ∃ q a, selectActionMain rw V s = (some q, some a) ∧ a ∈ actions := by
  have h : sortedActionsMain = [D, L, R, U] := by decide
  obtain ⟨a, ha, hmem⟩ := selFold_snd (viTotal rw V s) [L, R, U] (viTotal rw V s D) D
  refine ⟨max (max (max (viTotal rw V s D) (viTotal rw V s L))
      (viTotal rw V s R)) (viTotal rw V s U), a, ?_, ?_⟩
  · have hfst := selectActionMain_fst rw V s
    have hsnd : (selectActionMain rw V s).2 = some a := by
      rw [selectActionMain, h, List.foldl_cons, selStep_none]
      exact ha
    exact Prod.ext_iff.mpr ⟨hfst, hsnd⟩
  · rcases hmem with rfl | hm
    · decide
    · fin_cases hm <;> decide

theorem selectActionImprove_eq_main :
    selectActionImprove = selectActionMain := rfl

theorem mem_dictSet {α : Type} (l : List (GState × α)) (k : GState) (v : α)
    (e : GState × α) (he : e ∈ dictSet l k v) : e = (k, v) ∨ e ∈ l := by
  induction l with
  | nil => simpa [dictSet] using he
  | cons p rest ih =>
      rcases p with ⟨k', v'⟩
      by_cases h1 : k' = k
      · subst h1
        simp only [dictSet, if_pos] at he
        simp only [List.mem_cons] at he ⊢
        tauto
      · simp only [dictSet, if_neg h1] at he
        simp only [List.mem_cons] at he ⊢
        rcases he with rfl | hmem
        · tauto
        · rcases ih hmem with h | h <;> tauto

/-- The entries written by a `value_iteration` sweep fold all carry a
`some` best action; entries not written are inherited. -/
theorem viStep_foldl_entries (rw : GState → ℚ) (V : VT) (ks : List GState)
    (acc : VT × PT × ℚ)
    (hacc : ∀ e ∈ acc.2.1, ∃ a, e.2 = some a ∧ a ∈ actions) :
    ∀ e ∈ (ks.foldl (viStep rw V) acc).2.1, ∃ a, e.2 = some a ∧ a ∈ actions := by
  induction ks generalizing acc with
  | nil => exact hacc
  | cons k tl ih =>
      rw [List.foldl_cons]
      apply ih
      by_cases hk : k ∈ terminal_states
      · simpa [viStep, hk] using hacc
      · intro e he
        simp only [viStep, if_neg hk] at he
        rcases mem_dictSet _ _ _ _ he with rfl | hmem
        · obtain ⟨q, a, hqa, hmem'⟩ := selectActionMain_some rw V k
          exact ⟨a, by rw [hqa], hmem'⟩
        · exact hacc e hmem

theorem improveStep_foldl_entries (rw : GState → ℚ) (V : VT) (ks : List GState)
    (p0 : PT) (hp0 : ∀ e ∈ p0, ∃ a, e.2 = some a ∧ a ∈ actions) :
    ∀ e ∈ ks.foldl (improveStep rw V) p0, ∃ a, e.2 = some a ∧ a ∈ actions := by
  induction ks generalizing p0 with
  | nil => exact hp0
  | cons k tl ih =>
      rw [List.foldl_cons]
      apply ih
      by_cases hk : k ∈ terminal_states
      · simpa [improveStep, hk] using hp0
      · intro e he
        simp only [improveStep, if_neg hk] at he
        rcases mem_dictSet _ _ _ _ he with rfl | hmem
        · obtain ⟨q, a, hqa, hmem'⟩ := selectActionMain_some rw V k
          exact ⟨a, by rw [selectActionImprove_eq_main, hqa], hmem'⟩
        · exact hp0 e hmem

theorem viLoop_entries (rw : GState → ℚ) (θ : ℚ) :
    ∀ fuel V p, (∀ e ∈ p, ∃ a, e.2 = some a ∧ a ∈ actions) →
      ∀ out, viLoop rw θ fuel V p = some out →
        ∀ e ∈ out.2, ∃ a, e.2 = some a ∧ a ∈ actions := by
  intro fuel
  induction fuel with
  | zero => intro V p _ out hout; simp [viLoop] at hout
  | succ f ih =>
      intro V p hp out hout
      rw [viLoop] at hout
      by_cases hδ : (viSweep rw V p).2.2 < θ
      · rw [if_pos hδ] at hout
        obtain rfl := Option.some_injective _ hout
        exact viStep_foldl_entries rw V states (V, p, 0) hp
      · rw [if_neg hδ] at hout
        exact ih _ _ (viStep_foldl_entries rw V states (V, p, 0) hp) out hout

/-- C10: the action-selection loops of `value_iteration` and
`policy_improvement` always produce a `some` best action (every candidate
backed-up value exceeds the initial `-inf`, so the first comparison already
succeeds), and consequently every entry of a policy returned by a converged
`value_iteration` run, or produced by `policy_improvement`, maps its state to
one of the four actions `U`, `D`, `L`, `R` — never to `None`. -/
theorem best_action_never_none :
    (∀ rw V s, ∃ q a, selectActionMain rw V s = (some q, some a) ∧ a ∈ actions) ∧
    (∀ rw V s, ∃ q a, selectActionImprove rw V s = (some q, some a) ∧ a ∈ actions) ∧
    (∀ (rw : GState → ℚ) V, ∀ e ∈ policy_improvement V rw,
      ∃ a, e.2 = some a ∧ a ∈ actions) ∧
    (∀ r θ fuel out, viLoop (rewards r) θ fuel initialV initialPolicyMain = some out →
      ∀ e ∈ out.2, ∃ a, e.2 = some a ∧ a ∈ actions) := by
  refine ⟨selectActionMain_some, ?_, ?_, ?_⟩
  · intro rw V s
    rw [selectActionImprove_eq_main]
    exact selectActionMain_some rw V s
  · intro rw V e he
    exact improveStep_foldl_entries rw V states [] (by simp) e he
  · intro r θ fuel out hout e he
    refine viLoop_entries (rewards r) θ fuel initialV initialPolicyMain ?_ out hout e he
    intro e' he'
    simp only [initialPolicyMain, List.mem_map] at he'
    obtain ⟨s, _, rfl⟩ := he'
    exact ⟨U, rfl, by decide⟩

/-- Witness for `best_action_never_none`: the policy produced by
`policy_improvement` on the zero value table with reward `r = 0` contains the
entry `((0,0), some D)`, which indeed carries a `some` action. -/
theorem best_action_never_none_witness :
    ∃ a, (some D : Option Action) = some a ∧ a ∈ actions :=
  best_action_never_none.2.2.1 (rewards 0) initialV (((0 : Int), (0 : Int)), some D)
    (by with_unfolding_all decide)

/-! ## Sweep characterisations -/

theorem viSweep_value (rw : GState → ℚ) (V : VT) (p : PT) (s : GState) :
    dictGet 0 (viSweep rw V p).1 s =
      if s ∈ states ∧ ¬ s ∈ terminal_states
      then (selectActionMain rw V s).1.getD 0
      else dictGet 0 V s :=
  viStep_foldl_value rw V states (V, p, 0) s

theorem viSweep_policy (rw : GState → ℚ) (V : VT) (p : PT) (s : GState) :
    dictGet none (viSweep rw V p).2.1 s =
      if s ∈ states ∧ ¬ s ∈ terminal_states
      then (selectActionMain rw V s).2
      else dictGet none p s :=
  viStep_foldl_policy rw V states (V, p, 0) s

theorem viSweep_terminal (rw : GState → ℚ) (V : VT) (p : PT) (s : GState)
    (h : s ∈ terminal_states) :
    dictGet 0 (viSweep rw V p).1 s = dictGet 0 V s := by
  rw [viSweep_value]
  simp [h]

theorem viSweep_keys (rw : GState → ℚ) (V : VT) (p : PT) (s₀ : GState)
    (h : s₀ ∈ terminal_states) :
    s₀ ∈ dictKeys (viSweep rw V p).2.1 ↔ s₀ ∈ dictKeys p :=
  viStep_foldl_keys rw V states (V, p, 0) s₀ h

theorem evalSweep_value (policy : PT) (rw : GState → ℚ) (V : VT) (s : GState) :
    dictGet 0 (evalSweep policy rw V).1 s =
      if s ∈ states ∧ ¬ s ∈ terminal_states
      then evalValue rw V s ((dictGet none policy s).getD U)
      else dictGet 0 V s :=
  evalStep_foldl_value policy rw V states (V, 0) s

theorem evalSweep_terminal (policy : PT) (rw : GState → ℚ) (V : VT) (s : GState)
    (h : s ∈ terminal_states) :
    dictGet 0 (evalSweep policy rw V).1 s = dictGet 0 V s := by
  rw [evalSweep_value]
  simp [h]

theorem improvement_value (rw : GState → ℚ) (V : VT) (s : GState) :
    dictGet none (policy_improvement V rw) s =
      if s ∈ states ∧ ¬ s ∈ terminal_states
      then (selectActionImprove rw V s).2
      else none := by
  rw [policy_improvement, improveStep_foldl]
  rfl

theorem improvement_keys (rw : GState → ℚ) (V : VT) (s₀ : GState)
    (h : s₀ ∈ terminal_states) :
    ¬ s₀ ∈ dictKeys (policy_improvement V rw) := by
  rw [policy_improvement, improveStep_foldl_keys rw V states [] s₀ h]
  simp [dictKeys]

/-! ## Loop invariants at terminal states -/

theorem viLoop_terminal (rw : GState → ℚ) (θ : ℚ) :
    ∀ (fuel : Nat) (V : VT) (p : PT) (out : VT × PT),
      viLoop rw θ fuel V p = some out → ∀ s₀ ∈ terminal_states,
        dictGet 0 out.1 s₀ = dictGet 0 V s₀ ∧
        (s₀ ∈ dictKeys out.2 ↔ s₀ ∈ dictKeys p) := by
  intro fuel
  induction fuel with
  | zero => intro V p out hout; simp [viLoop] at hout
  | succ f ih =>
      intro V p out hout s₀ h₀
      rw [viLoop] at hout
      by_cases hδ : (viSweep rw V p).2.2 < θ
      · rw [if_pos hδ] at hout
        obtain rfl := Option.some_injective _ hout
        exact ⟨viSweep_terminal rw V p s₀ h₀, viSweep_keys rw V p s₀ h₀⟩
      · rw [if_neg hδ] at hout
        obtain ⟨h1, h2⟩ := ih _ _ out hout s₀ h₀
        exact ⟨h1.trans (viSweep_terminal rw V p s₀ h₀),
          h2.trans (viSweep_keys rw V p s₀ h₀)⟩

theorem evalLoop_terminal (policy : PT) (rw : GState → ℚ) (θ : ℚ) :
    ∀ (fuel : Nat) (V : VT) (V' : VT),
      evalLoop policy rw θ fuel V = some V' → ∀ s₀ ∈ terminal_states,
        dictGet 0 V' s₀ = dictGet 0 V s₀ := by
  intro fuel
  induction fuel with
  | zero => intro V V' hout; simp [evalLoop] at hout
  | succ f ih =>
      intro V V' hout s₀ h₀
      rw [evalLoop] at hout
      by_cases hδ : (evalSweep policy rw V).2 < θ
      · rw [if_pos hδ] at hout
        obtain rfl := Option.some_injective _ hout
        exact evalSweep_terminal policy rw V s₀ h₀
      · rw [if_neg hδ] at hout
        exact (ih _ V' hout s₀ h₀).trans (evalSweep_terminal policy rw V s₀ h₀)

theorem piLoop_post (rw : GState → ℚ) (ef : Nat) :
    ∀ (fuel : Nat) (policy : PT) (out : VT × PT),
      piLoop rw ef fuel policy = some out →
        dictGet 0 out.1 ((0 : Int), (2 : Int)) = 0 ∧
        ¬ ((0 : Int), (2 : Int)) ∈ dictKeys out.2 := by
  intro fuel
  induction fuel with
  | zero => intro policy out hout; simp [piLoop] at hout
  | succ f ih =>
      intro policy out hout
      rw [piLoop] at hout
      cases hev : policy_evaluation policy rw ef with
      | none => rw [hev] at hout; simp at hout
      | some V =>
          rw [hev] at hout
          simp only [Option.some_bind] at hout
          have hV : dictGet 0 V ((0 : Int), (2 : Int)) = 0 := by
            have := evalLoop_terminal policy rw (1 / 10000) ef
              (states.map (fun s => (s, 0))) V hev ((0 : Int), (2 : Int)) (by decide)
            rwa [show dictGet 0 (states.map (fun s => (s, (0 : ℚ)))) ((0 : Int), (2 : Int)) = 0
              from by decide] at this
          by_cases hstable : policy = policy_improvement V rw
          · rw [if_pos hstable] at hout
            obtain rfl := Option.some_injective _ hout
            exact ⟨hV, improvement_keys rw V _ (by decide)⟩
          · rw [if_neg hstable] at hout
            exact ih _ out hout

/-- `policy_evaluation` reads its policy only at non-terminal states, so two
policies that agree there evaluate identically (fold level). -/
theorem evalStep_foldl_ext (p1 p2 : PT) (rw : GState → ℚ) (V : VT)
    (ks : List GState) (acc : VT × ℚ)
    (h : ∀ s ∈ ks, ¬ s ∈ terminal_states → dictGet none p1 s = dictGet none p2 s) :
    ks.foldl (evalStep p1 rw V) acc = ks.foldl (evalStep p2 rw V) acc := by
  induction ks generalizing acc with
  | nil => rfl
  | cons k tl ih =>
      rw [List.foldl_cons, List.foldl_cons]
      have hstep : evalStep p1 rw V acc k = evalStep p2 rw V acc k := by
        by_cases hk : k ∈ terminal_states
        · simp [evalStep, hk]
        · simp only [evalStep, if_neg hk]
          rw [h k (List.mem_cons_self k tl) hk]
      rw [hstep]
      exact ih _ (fun s hs hnt => h s (List.mem_cons_of_mem k hs) hnt)

theorem evalSweep_ext (p1 p2 : PT) (rw : GState → ℚ) (V : VT)
    (h : ∀ s ∈ states, ¬ s ∈ terminal_states → dictGet none p1 s = dictGet none p2 s) :
    evalSweep p1 rw V = evalSweep p2 rw V :=
  evalStep_foldl_ext p1 p2 rw V states (V, 0) h

theorem evalLoop_ext (p1 p2 : PT) (rw : GState → ℚ) (θ : ℚ)
    (h : ∀ s ∈ states, ¬ s ∈ terminal_states → dictGet none p1 s = dictGet none p2 s) :
    ∀ (fuel : Nat) (V : VT), evalLoop p1 rw θ fuel V = evalLoop p2 rw θ fuel V := by
  intro fuel
  induction fuel with
  | zero => intro V; rfl
  | succ f ih =>
      intro V
      rw [evalLoop, evalLoop, evalSweep_ext p1 p2 rw V h, ih]

theorem policy_evaluation_ext (p1 p2 : PT) (rw : GState → ℚ) (fuel : Nat) (θ : ℚ)
    (h : ∀ s ∈ states, ¬ s ∈ terminal_states → dictGet none p1 s = dictGet none p2 s) :
    policy_evaluation p1 rw fuel θ = policy_evaluation p2 rw fuel θ :=
  evalLoop_ext p1 p2 rw θ h fuel (states.map (fun s => (s, 0)))

/-- A `policy_iteration` outer loop started at a policy `P0` whose evaluation
`VB` improves to a policy `PB` that agrees with `P0` on all non-terminal
states (but differs as a dict, e.g. by the terminal key) runs exactly two
rounds: the second evaluation repeats the first, the second improvement
reproduces `PB`, and the loop returns `(VB, PB)`. -/
theorem piLoop_two_rounds (rw : GState → ℚ) (ef f : Nat) (P0 PB : PT) (VB : VT)
    (hev : policy_evaluation P0 rw ef = some VB)
    (himp : policy_improvement VB rw = PB)
    (hne : ¬ P0 = PB)
    (hagree : ∀ s ∈ states, ¬ s ∈ terminal_states →
      dictGet none P0 s = dictGet none PB s) :
    piLoop rw ef (f + 2) P0 = some (VB, PB) := by
  have hev2 : policy_evaluation PB rw ef = some VB := by
    rw [← policy_evaluation_ext P0 PB rw ef _ hagree]
    exact hev
  show piLoop rw ef (f + 1 + 1) P0 = some (VB, PB)
  rw [piLoop, hev]
  simp only [Option.some_bind, himp, if_neg hne]
  rw [piLoop, hev2]
  simp [himp]

/-- C5: in both solvers the terminal state `(0,2)` keeps its initialised
value `0` at every sweep and in every converged result, and it is never a
key of a returned policy: this holds for every iterate and every converged
output of the `value_iteration` loop, for every iterate and output of
`policy_evaluation`, for every `policy_improvement` output, and for every
converged output of `policy_iteration`. -/
theorem terminal_state_frozen :
    (∀ r n, dictGet 0 (viIterFrom (rewards r) (initialV, initialPolicyMain) n).1
      ((0 : Int), (2 : Int)) = 0) ∧
    (∀ r θ fuel out, viLoop (rewards r) θ fuel initialV initialPolicyMain = some out →
      dictGet 0 out.1 ((0 : Int), (2 : Int)) = 0 ∧
      ¬ ((0 : Int), (2 : Int)) ∈ dictKeys out.2) ∧
    (∀ policy rw n, dictGet 0 (evalIterFrom policy rw initialV n) ((0 : Int), (2 : Int)) = 0) ∧
    (∀ policy rw fuel θ V', evalLoop policy rw θ fuel initialV = some V' →
      dictGet 0 V' ((0 : Int), (2 : Int)) = 0) ∧
    (∀ (rw : GState → ℚ) V, ¬ ((0 : Int), (2 : Int)) ∈ dictKeys (policy_improvement V rw)) ∧
    (∀ r init ef fuel out, policy_iteration r init ef fuel = some out →
      dictGet 0 out.1 ((0 : Int), (2 : Int)) = 0 ∧
      ¬ ((0 : Int), (2 : Int)) ∈ dictKeys out.2) := by
  have hinit : dictGet 0 initialV ((0 : Int), (2 : Int)) = 0 := by decide
  refine ⟨?_, ?_, ?_, ?_, ?_, ?_⟩
  · intro r n
    induction n with
    | zero => exact hinit
    | succ m ihm =>
        show dictGet 0 (viSweep (rewards r) _ _).1 _ = 0
        rw [viSweep_terminal _ _ _ _ (by decide)]
        exact ihm
  · intro r θ fuel out hout
    obtain ⟨h1, h2⟩ := viLoop_terminal (rewards r) θ fuel initialV initialPolicyMain
      out hout ((0 : Int), (2 : Int)) (by decide)
    refine ⟨h1.trans hinit, fun hmem => ?_⟩
    have : ((0 : Int), (2 : Int)) ∈ dictKeys initialPolicyMain := h2.mp hmem
    revert this
    decide
  · intro policy rw n
    induction n with
    | zero => exact hinit
    | succ m ihm =>
        show dictGet 0 (evalSweep policy rw _).1 _ = 0
        rw [evalSweep_terminal _ _ _ _ (by decide)]
        exact ihm
  · intro policy rw fuel θ V' hout
    exact (evalLoop_terminal policy rw θ fuel initialV V' hout _ (by decide)).trans hinit
  · intro rw V
    exact improvement_keys rw V _ (by decide)
  · intro r init ef fuel out hout
    exact piLoop_post (rewards r) ef fuel _ out hout

/-- Witness for `terminal_state_frozen`: the concrete `value_iteration` run
with `r = 0` and threshold `1000` (which converges after one sweep) freezes
the terminal state's value at `0` and omits it from the returned policy. -/
theorem terminal_state_frozen_witness :
    dictGet 0 ((viLoop (rewards 0) 1000 2 initialV initialPolicyMain).getD
      ([], [])).1 ((0 : Int), (2 : Int)) = 0 ∧
    ¬ ((0 : Int), (2 : Int)) ∈ dictKeys
      ((viLoop (rewards 0) 1000 2 initialV initialPolicyMain).getD ([], [])).2 :=
  terminal_state_frozen.2.1 0 1000 2 _ (by with_unfolding_all decide)

/-! ## The sweep delta is the maximum over non-terminal states, and the
loops stop exactly when it falls below the threshold -/

theorem foldl_max_congr {g1 g2 : GState → ℚ} (l : List GState) (c : ℚ)
    (h : ∀ x ∈ l, g1 x = g2 x) :
    l.foldl (fun δ x => max δ (g1 x)) c = l.foldl (fun δ x => max δ (g2 x)) c := by
  induction l generalizing c with
  | nil => rfl
  | cons x xs ih =>
      rw [List.foldl_cons, List.foldl_cons, h x (List.mem_cons_self x xs),
        ih _ (fun y hy => h y (List.mem_cons_of_mem x hy))]

theorem foldl_max_init_le {g : GState → ℚ} (l : List GState) (c : ℚ) :
    c ≤ l.foldl (fun δ x => max δ (g x)) c := by
  induction l generalizing c with
  | nil => exact le_refl c
  | cons x xs ih => exact le_trans (le_max_left c (g x)) (ih _)

theorem foldl_max_le_mem {g : GState → ℚ} (l : List GState) (c : ℚ) :
    ∀ x ∈ l, g x ≤ l.foldl (fun δ y => max δ (g y)) c := by
  induction l generalizing c with
  | nil => intro x hx; simp at hx
  | cons y ys ih =>
      intro x hx
      rcases List.mem_cons.mp hx with rfl | hx'
      · exact le_trans (le_max_right c (g x)) (foldl_max_init_le ys _)
      · exact ih _ x hx'

theorem viIterFrom_shift (rw : GState → ℚ) (vp : VT × PT) (n : Nat) :
    viIterFrom rw vp (n + 1) =
      viIterFrom rw ((viSweep rw vp.1 vp.2).1, (viSweep rw vp.1 vp.2).2.1) n := by
  induction n with
  | zero => rfl
  | succ m ih =>
      rw [show viIterFrom rw vp (m + 1 + 1) =
        ((viSweep rw (viIterFrom rw vp (m + 1)).1 (viIterFrom rw vp (m + 1)).2).1,
         (viSweep rw (viIterFrom rw vp (m + 1)).1 (viIterFrom rw vp (m + 1)).2).2.1)
        from rfl, ih]
      rfl

theorem viDeltaFrom_shift (rw : GState → ℚ) (vp : VT × PT) (n : Nat) :
    viDeltaFrom rw ((viSweep rw vp.1 vp.2).1, (viSweep rw vp.1 vp.2).2.1) n =
      viDeltaFrom rw vp (n + 1) := by
  rw [viDeltaFrom, viDeltaFrom, ← viIterFrom_shift]

theorem evalIterFrom_shift (policy : PT) (rw : GState → ℚ) (V : VT) (n : Nat) :
    evalIterFrom policy rw V (n + 1) =
      evalIterFrom policy rw (evalSweep policy rw V).1 n := by
  induction n with
  | zero => rfl
  | succ m ih =>
      rw [show evalIterFrom policy rw V (m + 1 + 1) =
        (evalSweep policy rw (evalIterFrom policy rw V (m + 1))).1 from rfl, ih]
      rfl

theorem evalDeltaFrom_shift (policy : PT) (rw : GState → ℚ) (V : VT) (n : Nat) :
    evalDeltaFrom policy rw (evalSweep policy rw V).1 n =
      evalDeltaFrom policy rw V (n + 1) := by
  rw [evalDeltaFrom, evalDeltaFrom, ← evalIterFrom_shift]

theorem viLoop_iff (rw : GState → ℚ) (θ : ℚ) :
    ∀ (fuel : Nat) (vp : VT × PT) (out : VT × PT),
      viLoop rw θ fuel vp.1 vp.2 = some out ↔
        ∃ k, k < fuel ∧ (∀ j, j < k → ¬ viDeltaFrom rw vp j < θ) ∧
          viDeltaFrom rw vp k < θ ∧ out = viIterFrom rw vp (k + 1) := by
  intro fuel
  induction fuel with
  | zero =>
      intro vp out
      simp [viLoop]
  | succ f ih =>
      intro vp out
      rw [viLoop]
      have hδ0 : viDeltaFrom rw vp 0 = (viSweep rw vp.1 vp.2).2.2 := rfl
      by_cases h : (viSweep rw vp.1 vp.2).2.2 < θ
      · rw [if_pos h]
        constructor
        · intro h'
          obtain rfl := Option.some_injective _ h'
          exact ⟨0, Nat.succ_pos f, fun j hj => absurd hj (Nat.not_lt_zero j),
            hδ0 ▸ h, rfl⟩
        · rintro ⟨k, _, hmin, _, rfl⟩
          cases k with
          | zero => rfl
          | succ k' => exact absurd (hδ0 ▸ h) (hmin 0 (Nat.succ_pos k'))
      · rw [if_neg h]
        rw [ih ((viSweep rw vp.1 vp.2).1, (viSweep rw vp.1 vp.2).2.1) out]
        constructor
        · rintro ⟨k, hk, hmin, hless, hout⟩
          refine ⟨k + 1, Nat.succ_lt_succ hk, ?_, ?_, ?_⟩
          · intro j hj
            cases j with
            | zero => exact hδ0 ▸ h
            | succ j' =>
                have := hmin j' (Nat.lt_of_succ_lt_succ hj)
                rwa [viDeltaFrom_shift] at this
          · rwa [viDeltaFrom_shift] at hless
          · rw [hout]
            exact (viIterFrom_shift rw vp (k + 1)).symm
        · rintro ⟨k, hk, hmin, hless, hout⟩
          cases k with
          | zero => exact absurd hless (hδ0 ▸ h)
          | succ k' =>
              refine ⟨k', Nat.lt_of_succ_lt_succ hk, ?_, ?_, ?_⟩
              · intro j hj
                rw [viDeltaFrom_shift]
                exact hmin (j + 1) (Nat.succ_lt_succ hj)
              · rw [viDeltaFrom_shift]
                exact hless
              · rw [hout]
                exact viIterFrom_shift rw vp (k' + 1)

theorem evalLoop_iff (policy : PT) (rw : GState → ℚ) (θ : ℚ) :
    ∀ (fuel : Nat) (V : VT) (V' : VT),
      evalLoop policy rw θ fuel V = some V' ↔
        ∃ k, k < fuel ∧ (∀ j, j < k → ¬ evalDeltaFrom policy rw V j < θ) ∧
          evalDeltaFrom policy rw V k < θ ∧ V' = evalIterFrom policy rw V (k + 1) := by
  intro fuel
  induction fuel with
  | zero =>
      intro V V'
      simp [evalLoop]
  | succ f ih =>
      intro V V'
      rw [evalLoop]
      have hδ0 : evalDeltaFrom policy rw V 0 = (evalSweep policy rw V).2 := rfl
      by_cases h : (evalSweep policy rw V).2 < θ
      · rw [if_pos h]
        constructor
        · intro h'
          obtain rfl := Option.some_injective _ h'
          exact ⟨0, Nat.succ_pos f, fun j hj => absurd hj (Nat.not_lt_zero j),
            hδ0 ▸ h, rfl⟩
        · rintro ⟨k, _, hmin, _, rfl⟩
          cases k with
          | zero => rfl
          | succ k' => exact absurd (hδ0 ▸ h) (hmin 0 (Nat.succ_pos k'))
      · rw [if_neg h]
        rw [ih (evalSweep policy rw V).1 V']
        constructor
        · rintro ⟨k, hk, hmin, hless, hout⟩
          refine ⟨k + 1, Nat.succ_lt_succ hk, ?_, ?_, ?_⟩
          · intro j hj
            cases j with
            | zero => exact hδ0 ▸ h
            | succ j' =>
                have := hmin j' (Nat.lt_of_succ_lt_succ hj)
                rwa [evalDeltaFrom_shift] at this
          · rwa [evalDeltaFrom_shift] at hless
          · rw [hout]
            exact (evalIterFrom_shift policy rw V (k + 1)).symm
        · rintro ⟨k, hk, hmin, hless, hout⟩
          cases k with
          | zero => exact absurd hless (hδ0 ▸ h)
          | succ k' =>
              refine ⟨k', Nat.lt_of_succ_lt_succ hk, ?_, ?_, ?_⟩
              · intro j hj
                rw [evalDeltaFrom_shift]
                exact hmin (j + 1) (Nat.succ_lt_succ hj)
              · rw [evalDeltaFrom_shift]
                exact hless
              · rw [hout]
                exact evalIterFrom_shift policy rw V (k' + 1)

theorem viSweep_delta_fold (rw : GState → ℚ) (V : VT) (p : PT) :
    (viSweep rw V p).2.2 =
      (states.filter (fun s => decide (¬ s ∈ terminal_states))).foldl
        (fun δ s => max δ |dictGet 0 V s - (selectActionMain rw V s).1.getD 0|) 0 :=
  viStep_foldl_delta rw V states (V, p, 0)

theorem viSweep_delta_eq (rw : GState → ℚ) (V : VT) (p : PT) :
    (viSweep rw V p).2.2 =
      ((states.filter (fun s => decide (¬ s ∈ terminal_states))).map
        (fun s => |dictGet 0 (viSweep rw V p).1 s - dictGet 0 V s|)).foldl max 0 := by
  rw [viSweep_delta_fold, List.foldl_map]
  apply foldl_max_congr
  intro s hs
  have hmem := List.mem_filter.mp hs
  have hns : s ∈ states ∧ ¬ s ∈ terminal_states := ⟨hmem.1, of_decide_eq_true hmem.2⟩
  rw [viSweep_value, if_pos hns, abs_sub_comm]

theorem viSweep_delta_bound (rw : GState → ℚ) (V : VT) (p : PT) :
    ∀ s ∈ states.filter (fun s => decide (¬ s ∈ terminal_states)),
      |dictGet 0 (viSweep rw V p).1 s - dictGet 0 V s| ≤ (viSweep rw V p).2.2 := by
  intro s hs
  have hmem := List.mem_filter.mp hs
  have hns : s ∈ states ∧ ¬ s ∈ terminal_states := ⟨hmem.1, of_decide_eq_true hmem.2⟩
  rw [viSweep_delta_fold, viSweep_value, if_pos hns, abs_sub_comm]
  exact foldl_max_le_mem _ 0 s hs

theorem evalSweep_delta_fold (policy : PT) (rw : GState → ℚ) (V : VT) :
    (evalSweep policy rw V).2 =
      (states.filter (fun s => decide (¬ s ∈ terminal_states))).foldl
        (fun δ s => max δ
          |dictGet 0 V s - evalValue rw V s ((dictGet none policy s).getD U)|) 0 :=
  evalStep_foldl_delta policy rw V states (V, 0)

theorem evalSweep_delta_eq (policy : PT) (rw : GState → ℚ) (V : VT) :
    (evalSweep policy rw V).2 =
      ((states.filter (fun s => decide (¬ s ∈ terminal_states))).map
        (fun s => |dictGet 0 (evalSweep policy rw V).1 s - dictGet 0 V s|)).foldl max 0 := by
  rw [evalSweep_delta_fold, List.foldl_map]
  apply foldl_max_congr
  intro s hs
  have hmem := List.mem_filter.mp hs
  have hns : s ∈ states ∧ ¬ s ∈ terminal_states := ⟨hmem.1, of_decide_eq_true hmem.2⟩
  rw [evalSweep_value, if_pos hns, abs_sub_comm]

theorem evalSweep_delta_bound (policy : PT) (rw : GState → ℚ) (V : VT) :
    ∀ s ∈ states.filter (fun s => decide (¬ s ∈ terminal_states)),
      |dictGet 0 (evalSweep policy rw V).1 s - dictGet 0 V s| ≤ (evalSweep policy rw V).2 := by
  intro s hs
  have hmem := List.mem_filter.mp hs
  have hns : s ∈ states ∧ ¬ s ∈ terminal_states := ⟨hmem.1, of_decide_eq_true hmem.2⟩
  rw [evalSweep_delta_fold, evalSweep_value, if_pos hns, abs_sub_comm]
  exact foldl_max_le_mem _ 0 s hs

/-- C6: in `value_iteration` (and likewise in `policy_evaluation`) each sweep's
`delta` is the maximum over the non-terminal states of
`|V_new(s) - V_old(s)|` — terminal states are excluded from the computation —
and the loops return exactly at the first sweep whose `delta` falls below the
threshold, whose default value is `1e-4`. -/
theorem delta_is_max_and_stops_below_threshold :
    (∀ rw V p,
      (viSweep rw V p).2.2 =
        ((states.filter (fun s => decide (¬ s ∈ terminal_states))).map
          (fun s => |dictGet 0 (viSweep rw V p).1 s - dictGet 0 V s|)).foldl max 0 ∧
      ∀ s ∈ states.filter (fun s => decide (¬ s ∈ terminal_states)),
        |dictGet 0 (viSweep rw V p).1 s - dictGet 0 V s| ≤ (viSweep rw V p).2.2) ∧
    (∀ policy rw V,
      (evalSweep policy rw V).2 =
        ((states.filter (fun s => decide (¬ s ∈ terminal_states))).map
          (fun s => |dictGet 0 (evalSweep policy rw V).1 s - dictGet 0 V s|)).foldl max 0 ∧
      ∀ s ∈ states.filter (fun s => decide (¬ s ∈ terminal_states)),
        |dictGet 0 (evalSweep policy rw V).1 s - dictGet 0 V s| ≤ (evalSweep policy rw V).2) ∧
    (∀ rw θ fuel (vp out : VT × PT),
      viLoop rw θ fuel vp.1 vp.2 = some out ↔
        ∃ k, k < fuel ∧ (∀ j, j < k → ¬ viDeltaFrom rw vp j < θ) ∧
          viDeltaFrom rw vp k < θ ∧ out = viIterFrom rw vp (k + 1)) ∧
    (∀ policy rw θ fuel V V',
      evalLoop policy rw θ fuel V = some V' ↔
        ∃ k, k < fuel ∧ (∀ j, j < k → ¬ evalDeltaFrom policy rw V j < θ) ∧
          evalDeltaFrom policy rw V k < θ ∧ V' = evalIterFrom policy rw V (k + 1)) ∧
    (∀ r fuel, value_iteration r fuel =
      viLoop (rewards r) (1 / 10000) fuel initialV initialPolicyMain) ∧
    (∀ policy rw fuel, policy_evaluation policy rw fuel =
      evalLoop policy rw (1 / 10000) fuel initialV) :=
  ⟨fun rw V p => ⟨viSweep_delta_eq rw V p, viSweep_delta_bound rw V p⟩,
   fun policy rw V => ⟨evalSweep_delta_eq policy rw V, evalSweep_delta_bound policy rw V⟩,
   fun rw θ fuel vp out => viLoop_iff rw θ fuel vp out,
   fun policy rw θ fuel V V' => evalLoop_iff policy rw θ fuel V V',
   fun _ _ => rfl, fun _ _ _ => rfl⟩

/-- Witness for `delta_is_max_and_stops_below_threshold`: the non-terminal
state `(0,0)` of the first sweep at `r = 0` contributes at most the sweep's
`delta`. -/
theorem delta_is_max_witness :
    |dictGet 0 (viSweep (rewards 0) initialV initialPolicyMain).1 ((0 : Int), (0 : Int)) -
      dictGet 0 initialV ((0 : Int), (0 : Int))| ≤
      (viSweep (rewards 0) initialV initialPolicyMain).2.2 :=
  (delta_is_max_and_stops_below_threshold.1 (rewards 0) initialV initialPolicyMain).2
    ((0 : Int), (0 : Int)) (by decide)

theorem evalA677 :
    policy_evaluation (states.map (fun s => (s, some (piInitA s))))
      (rewards (677 / 5000)) 60 = some VA677 :=
  optVTBeq_eq (by with_unfolding_all decide)

theorem impA677 : policy_improvement VA677 (rewards (677 / 5000)) = PA677 := by
  with_unfolding_all decide

theorem evalB677 :
    policy_evaluation (states.map (fun s => (s, some (piInitB s))))
      (rewards (677 / 5000)) 300 = some VB677 :=
  optVTBeq_eq (by with_unfolding_all decide)

theorem impB677 : policy_improvement VB677 (rewards (677 / 5000)) = PB677 := by
  with_unfolding_all decide

theorem evalV0 :
    policy_evaluation (states.map (fun s => (s, some (piStar0 s))))
      (rewards 0) 80 = some V0pi :=
  optVTBeq_eq (by with_unfolding_all decide)

theorem impV0 : policy_improvement V0pi (rewards 0) = P0pi := by
  with_unfolding_all decide

theorem evalM3 :
    policy_evaluation (states.map (fun s => (s, some (piStarM3 s))))
      (rewards (-3)) 30 = some Vm3pi :=
  optVTBeq_eq (by with_unfolding_all decide)

theorem impM3 : policy_improvement Vm3pi (rewards (-3)) = Pm3pi := by
  with_unfolding_all decide

theorem evalCex :
    policy_evaluation (states.map (fun s => (s, some (piStarCex s))))
      (rewards (-1629 / 50000)) 40 = some Vcexpi :=
  optVTBeq_eq (by with_unfolding_all decide)

theorem impCex : policy_improvement Vcexpi (rewards (-1629 / 50000)) = Pcexpi := by
  with_unfolding_all decide

theorem viRun0 : value_iteration 0 80 = some (V0pi, P0pi) :=
  optVPBeq_eq (by with_unfolding_all decide)

theorem viRunM3 : value_iteration (-3) 30 = some (Vm3vi, Pm3pi) :=
  optVPBeq_eq (by with_unfolding_all decide)

theorem piRunA677 :
    policy_iteration (677 / 5000) piInitA 60 4 = some (VA677, PA677) := by
  show piLoop (rewards (677 / 5000)) 60 (2 + 2)
    (states.map (fun s => (s, some (piInitA s)))) = some (VA677, PA677)
  exact piLoop_two_rounds (rewards (677 / 5000)) 60 2 _ PA677 VA677
    evalA677 impA677 (by with_unfolding_all decide) (by with_unfolding_all decide)

theorem piRunB677 :
    policy_iteration (677 / 5000) piInitB 300 4 = some (VB677, PB677) := by
  show piLoop (rewards (677 / 5000)) 300 (2 + 2)
    (states.map (fun s => (s, some (piInitB s)))) = some (VB677, PB677)
  exact piLoop_two_rounds (rewards (677 / 5000)) 300 2 _ PB677 VB677
    evalB677 impB677 (by with_unfolding_all decide) (by with_unfolding_all decide)

theorem piRun0 : policy_iteration 0 piStar0 80 3 = some (V0pi, P0pi) := by
  show piLoop (rewards 0) 80 (1 + 2)
    (states.map (fun s => (s, some (piStar0 s)))) = some (V0pi, P0pi)
  exact piLoop_two_rounds (rewards 0) 80 1 _ P0pi V0pi
    evalV0 impV0 (by with_unfolding_all decide) (by with_unfolding_all decide)

theorem piRunM3 : policy_iteration (-3) piStarM3 30 3 = some (Vm3pi, Pm3pi) := by
  show piLoop (rewards (-3)) 30 (1 + 2)
    (states.map (fun s => (s, some (piStarM3 s)))) = some (Vm3pi, Pm3pi)
  exact piLoop_two_rounds (rewards (-3)) 30 1 _ Pm3pi Vm3pi
    evalM3 impM3 (by with_unfolding_all decide) (by with_unfolding_all decide)

theorem piRunCex :
    policy_iteration (-1629 / 50000) piStarCex 40 4 = some (Vcexpi, Pcexpi) := by
  show piLoop (rewards (-1629 / 50000)) 40 (2 + 2)
    (states.map (fun s => (s, some (piStarCex s)))) = some (Vcexpi, Pcexpi)
  exact piLoop_two_rounds (rewards (-1629 / 50000)) 40 2 _ Pcexpi Vcexpi
    evalCex impCex (by with_unfolding_all decide) (by with_unfolding_all decide)

/-! ## Monotonicity of the sweep iterates in the reward parameter -/

theorem snd_ite {c : Prop} [Decidable c] (x y : GState) (p : ℚ) :
    (if c then (x, p) else (y, p)).2 = p := by
  split <;> rfl

theorem map_snd_next (s : GState) (a : Action) :
    (get_next_states s a).map Prod.snd = [8 / 10, 1 / 10, 1 / 10] := by
  cases a <;> simp [get_next_states, perpendiculars, action_effects, snd_ite]

theorem prob_nonneg (s : GState) (a : Action) (x : GState × ℚ)
    (hx : x ∈ get_next_states s a) : 0 ≤ x.2 := by
  have hmem : x.2 ∈ (get_next_states s a).map Prod.snd := List.mem_map_of_mem _ hx
  rw [map_snd_next] at hmem
  simp only [List.mem_cons, List.not_mem_nil, or_false] at hmem
  rcases hmem with h | h | h <;> rw [h] <;> norm_num

theorem discount_nonneg : 0 ≤ discount := by
  rw [discount]
  norm_num

theorem rewards_mono {r1 r2 : ℚ} (h : r1 ≤ r2) (s : GState) :
    rewards r1 s ≤ rewards r2 s := by
  rw [rewards, rewards]
  split_ifs <;> simp [h]

theorem viTotal_mono {r1 r2 : ℚ} (V1 V2 : VT) (s : GState) (a : Action)
    (hr : r1 ≤ r2) (hV : ∀ t, dictGet 0 V1 t ≤ dictGet 0 V2 t) :
    viTotal (rewards r1) V1 s a ≤ viTotal (rewards r2) V2 s a := by
  rw [viTotal, viTotal, foldl_add_map, foldl_add_map, zero_add, zero_add]
  apply List.sum_le_sum
  intro x hx
  apply mul_le_mul_of_nonneg_left _ (prob_nonneg s a x hx)
  exact add_le_add (rewards_mono hr s)
    (mul_le_mul_of_nonneg_left (hV x.1) discount_nonneg)

theorem selMax_mono {r1 r2 : ℚ} (V1 V2 : VT) (s : GState)
    (hr : r1 ≤ r2) (hV : ∀ t, dictGet 0 V1 t ≤ dictGet 0 V2 t) :
    (selectActionMain (rewards r1) V1 s).1.getD 0 ≤
      (selectActionMain (rewards r2) V2 s).1.getD 0 := by
  rw [selectActionMain_fst, selectActionMain_fst]
  simp only [Option.getD_some]
  exact max_le_max (max_le_max (max_le_max
    (viTotal_mono V1 V2 s D hr hV) (viTotal_mono V1 V2 s L hr hV))
    (viTotal_mono V1 V2 s R hr hV)) (viTotal_mono V1 V2 s U hr hV)

theorem viSweep_mono {r1 r2 : ℚ} (V1 V2 : VT) (p1 p2 : PT)
    (hr : r1 ≤ r2) (hV : ∀ t, dictGet 0 V1 t ≤ dictGet 0 V2 t) :
    ∀ t, dictGet 0 (viSweep (rewards r1) V1 p1).1 t ≤
      dictGet 0 (viSweep (rewards r2) V2 p2).1 t := by
  intro t
  rw [viSweep_value, viSweep_value]
  by_cases h : t ∈ states ∧ ¬ t ∈ terminal_states
  · rw [if_pos h, if_pos h]
    exact selMax_mono V1 V2 t hr hV
  · rw [if_neg h, if_neg h]
    exact hV t

theorem viIter_mono {r1 r2 : ℚ} (hr : r1 ≤ r2) :
    ∀ n t, dictGet 0 (viIterFrom (rewards r1) (initialV, initialPolicyMain) n).1 t ≤
      dictGet 0 (viIterFrom (rewards r2) (initialV, initialPolicyMain) n).1 t := by
  intro n
  induction n with
  | zero => intro t; exact le_refl _
  | succ m ih =>
      intro t
      show dictGet 0 (viSweep (rewards r1)
          (viIterFrom (rewards r1) (initialV, initialPolicyMain) m).1
          (viIterFrom (rewards r1) (initialV, initialPolicyMain) m).2).1 t ≤
        dictGet 0 (viSweep (rewards r2)
          (viIterFrom (rewards r2) (initialV, initialPolicyMain) m).1
          (viIterFrom (rewards r2) (initialV, initialPolicyMain) m).2).1 t
      exact viSweep_mono _ _ _ _ hr ih t

/-- C9 counterexample: the converged value at the start state `(0,0)` is not
monotone in the reward parameter: for `r1 = -0.92225614 ≤ r2 = -0.92225613`
the `value_iteration` run for `r1` stops after 17 sweeps and the run for `r2`
after 18, and the returned value at `(0,0)` for `r2` is strictly smaller than
for `r1`. -/
theorem start_value_not_monotone :
    ((-92225614 : ℚ) / 100000000 ≤ (-92225613 : ℚ) / 100000000) ∧
    ((value_iteration (-92225614 / 100000000) 30).bind (fun a =>
      (value_iteration (-92225613 / 100000000) 30).map (fun b =>
        decide (dictGet 0 b.1 ((0 : Int), (0 : Int)) <
          dictGet 0 a.1 ((0 : Int), (0 : Int)))))) = some true := by
  constructor
  · norm_num
  · with_unfolding_all decide

/-- C9 as amended: at every fixed sweep count `n` the `n`-th iterate of the
`value_iteration` sweep is monotone in `r` at `(0,0)` (it is only across
changes of the stopping sweep count that monotonicity of the returned value
fails); and for `r = -3` the returned policy at `(0,0)` is `R`, whose primary
outcome moves toward the goal column, to `(0,1)` with probability `0.8`. -/
theorem sweep_values_monotone_in_r :
    (∀ r1 r2 : ℚ, r1 ≤ r2 → ∀ n,
      dictGet 0 (viIterFrom (rewards r1) (initialV, initialPolicyMain) n).1
        ((0 : Int), (0 : Int)) ≤
      dictGet 0 (viIterFrom (rewards r2) (initialV, initialPolicyMain) n).1
        ((0 : Int), (0 : Int))) ∧
    ((value_iteration (-3) 30).map (fun vp => dictGet none vp.2 ((0 : Int), (0 : Int))) =
      some (some R)) ∧
    (get_next_states ((0 : Int), (0 : Int)) R).head? =
      some (((0 : Int), (1 : Int)), 8 / 10) := by
  refine ⟨fun r1 r2 hr n => viIter_mono hr n _, ?_, by with_unfolding_all decide⟩
  rw [viRunM3]
  with_unfolding_all decide

/-- Witness for `sweep_values_monotone_in_r` at `r1 = 0 ≤ r2 = 1`, sweep
count `1`. -/
theorem sweep_values_monotone_in_r_witness :
    (0 : ℚ) ≤ 1 ∧
    dictGet 0 (viIterFrom (rewards 0) (initialV, initialPolicyMain) 1).1
      ((0 : Int), (0 : Int)) ≤
    dictGet 0 (viIterFrom (rewards 1) (initialV, initialPolicyMain) 1).1
      ((0 : Int), (0 : Int)) :=
  ⟨by norm_num, sweep_values_monotone_in_r.1 0 1 (by norm_num) 1⟩

/-! ## Cross-algorithm comparison and determinism

The convergence runs below are kernel-checked once each, as standalone
lemmas against the literal tables above, and the outer `policy_iteration`
loops are then assembled with `piLoop_two_rounds`; this keeps the memory of
any single declaration's check bounded. -/

/-- C1 counterexample: at `r = -1629/50000 = -0.03258` (discount `0.99`,
threshold `1e-4`), `value_iteration` returns policy `U` at `(0,0)` while
`policy_iteration` returns policy `R` at `(0,0)` — the two solvers do not
produce the same policy for every reward parameter. -/
theorem vi_pi_disagree :
    ((value_iteration (-1629 / 50000) 80).map
      (fun vp => dictGet none vp.2 ((0 : Int), (0 : Int))) = some (some U)) ∧
    ((policy_iteration (-1629 / 50000) piStarCex 40 4).map
      (fun vp => dictGet none vp.2 ((0 : Int), (0 : Int))) = some (some R)) := by
  constructor
  · with_unfolding_all decide
  · rw [piRunCex]
    with_unfolding_all decide

/-- C1 as amended: for the reference rewards `r = 0` and `r = -3` (discount
`0.99`, threshold `1e-4`), `value_iteration` and `policy_iteration` return
the same `Policy` dict, and value tables that agree state-by-state within the
convergence threshold `1e-4`.  (The same holds numerically for `r = 100` and
`r = 3`, whose exact-arithmetic runs are too long to check here, but not for
every `r`: see the counterexample.) -/
theorem vi_pi_agree_reference_rewards :
    (let o1 := value_iteration 0 80
     let o2 := policy_iteration 0 piStar0 80 3
     o1.map Prod.snd = o2.map Prod.snd ∧
     (o1.bind (fun a => o2.map (fun b =>
       states.all (fun s => decide (|dictGet 0 a.1 s - dictGet 0 b.1 s| < 1 / 10000))))) =
       some true) ∧
    (let o1 := value_iteration (-3) 30
     let o2 := policy_iteration (-3) piStarM3 30 3
     o1.map Prod.snd = o2.map Prod.snd ∧
     (o1.bind (fun a => o2.map (fun b =>
       states.all (fun s => decide (|dictGet 0 a.1 s - dictGet 0 b.1 s| < 1 / 10000))))) =
       some true) := by
  constructor
  · show (value_iteration 0 80).map Prod.snd =
        (policy_iteration 0 piStar0 80 3).map Prod.snd ∧
      ((value_iteration 0 80).bind (fun a => (policy_iteration 0 piStar0 80 3).map (fun b =>
        states.all (fun s => decide (|dictGet 0 a.1 s - dictGet 0 b.1 s| < 1 / 10000))))) =
        some true
    rw [viRun0, piRun0]
    exact ⟨rfl, by with_unfolding_all decide⟩
  · show (value_iteration (-3) 30).map Prod.snd =
        (policy_iteration (-3) piStarM3 30 3).map Prod.snd ∧
      ((value_iteration (-3) 30).bind (fun a => (policy_iteration (-3) piStarM3 30 3).map (fun b =>
        states.all (fun s => decide (|dictGet 0 a.1 s - dictGet 0 b.1 s| < 1 / 10000))))) =
        some true
    rw [viRunM3, piRunM3]
    exact ⟨rfl, by with_unfolding_all decide⟩

/-- C8 counterexample: `policy_iteration`'s output is not independent of the
randomly drawn initial policy.  At `r = 677/5000 = 0.1354` the run started
from `piInitA` returns policy `U` at `(0,0)` while the run started from
`piInitB` returns policy `L` at `(0,0)` — so two executions of
`policy_iteration(r)` whose `random.choice` draws differ can return
different results bit-for-bit. -/
theorem pi_depends_on_initial_policy :
    ((policy_iteration (677 / 5000) piInitA 60 4).map
      (fun vp => dictGet none vp.2 ((0 : Int), (0 : Int))) = some (some U)) ∧
    ((policy_iteration (677 / 5000) piInitB 300 4).map
      (fun vp => dictGet none vp.2 ((0 : Int), (0 : Int))) = some (some L)) := by
  constructor
  · rw [piRunA677]
    with_unfolding_all decide
  · rw [piRunB677]
    with_unfolding_all decide

/-- C8 as amended: both solvers are deterministic given their actual inputs —
`value_iteration`'s output is a function of `(r, threshold)` alone, and
`policy_iteration`'s output is a function of `r` and the drawn initial
policy: two runs whose drawn initial policies agree on every state return
identical results.  (Outputs are *not* independent of the drawn initial
policy; see the counterexample.) -/
theorem solvers_deterministic_given_inputs :
    (∀ (r : ℚ) (fuel : Nat) (θ : ℚ),
      value_iteration r fuel θ = viLoop (rewards r) θ fuel initialV initialPolicyMain) ∧
    (∀ (r : ℚ) (init1 init2 : GState → Action) (ef fuel : Nat),
      (∀ s ∈ states, init1 s = init2 s) →
      policy_iteration r init1 ef fuel = policy_iteration r init2 ef fuel) := by
  refine ⟨fun _ _ _ => rfl, fun r init1 init2 ef fuel h => ?_⟩
  rw [policy_iteration, policy_iteration]
  have : states.map (fun s => (s, some (init1 s))) =
      states.map (fun s => (s, some (init2 s))) :=
    List.map_congr_left (fun s hs => by rw [h s hs])
  rw [this]

/-- Witness for `solvers_deterministic_given_inputs`: two syntactically
different but pointwise-equal initial policies give identical
`policy_iteration` results. -/
theorem solvers_deterministic_witness :
    policy_iteration (-3) piStarM3 0 1 =
      policy_iteration (-3) (fun s => if s ∈ states then piStarM3 s else U) 0 1 :=
  solvers_deterministic_given_inputs.2 (-3) piStarM3
    (fun s => if s ∈ states then piStarM3 s else U) 0 1
    (fun s hs => by simp [hs])

end MDP
